import Mathlib

/-!
# EquationExplorer: the logic helpers of `src/App.jsx`

A shallow embedding of the pure helpers (`getSolutionType`, `getIntersectionPoint`,
`generateDataPoints`), of the two random generators (`generateQuizProblem`,
`generateChallenge`) and of the handlers `checkQuiz` and `submitChallenge`, followed by the
theorems about them.

Coefficients are JavaScript numbers holding integers; they are `Int` here.
The component state of `App` (the `useState` cells) is the record `AppState`, and every
handler is a function from the state before the call to the state after it. A handler that
calls `Math.random()` takes the sequence of values these calls return as an argument.
-/

namespace EquationExplorer

/-! ## The random source -/

/-- One value returned by `Math.random()`: the fraction `num / den`, which lies in `[0, 1)`. -/
structure Sample where
  num : Nat
  den : Nat
  lt : num < den

/-- The expression `Math.floor(Math.random() * n)` for the sample `u`. The product is rounded
by the machine before the floor is taken; with or without that rounding the values the
expression can take are exactly `0, ..., n - 1`, and the exact quotient is used here. -/
def floorTimes (u : Sample) (n : Nat) : Nat := u.num * n / u.den

/-- The expression `Math.random() > 0.5` for the sample `u`. -/
def gtHalf (u : Sample) : Bool := decide (u.den < 2 * u.num)

/-! ## Data model -/

/-- The object literal `{ a, b, c, d }` handed to a challenge predicate. -/
structure Coeffs where
  a : Int
  b : Int
  c : Int
  d : Int
deriving DecidableEq, Repr

/-- The object stored by `setQuizProblem`. -/
structure QuizProblem where
  a : Int
  b : Int
  c : Int
  d : Int
  type : String
  style : String
deriving DecidableEq, Repr

/-- The object stored by `setQuizFeedback`. -/
structure QuizFeedback where
  correct : Bool
  msg : String
deriving DecidableEq, Repr

/-- The object stored by `setChallenge`: `{ goal, locked, target }`. -/
structure Challenge where
  goal : String
  locked : List String
  target : Coeffs → Bool

/-- The `useState` cells of `App` (lines 104-126). -/
structure AppState where
  mode : String
  a : Int
  b : Int
  c : Int
  d : Int
  graphLimit : Int
  quizProblem : Option QuizProblem
  quizFeedback : Option QuizFeedback
  score : Nat
  questionCount : Nat
  quizFinished : Bool
  challenge : Option Challenge
  challengeSuccess : Bool
  challengeFeedback : Option String

/-- The initial values of the `useState` cells. -/
def AppState.initial : AppState :=
  { mode := "explore", a := 2, b := 1, c := -1, d := 4, graphLimit := 10,
    quizProblem := none, quizFeedback := none, score := 0, questionCount := 0,
    quizFinished := false, challenge := none, challengeSuccess := false,
    challengeFeedback := none }

/-! ## Logic helpers -/

/-- `getSolutionType` (lines 130-135). -/
def getSolutionType (m1 b1 m2 b2 : Int) : String :=
  if m1 = m2 then
    (if b1 = b2 then "Infinite Solutions" else "No Solution")
  else
    "One Solution"

/-! ## JavaScript numbers

A JavaScript number is a binary64 value. The generators and the handlers only compare
integers and add small ones, and their numbers are `Int`. `getIntersectionPoint` and
`generateDataPoints` multiply, add, subtract or divide their arguments; in them a finite
number is the rational it denotes, and the result of each arithmetic operation is rounded to
the nearest binary64 number by `fl`. The exponent range of binary64 is not modelled (no
overflow to `Infinity`, no subnormal numbers): `fl` is the rounding of the code as long as no
value reaches `2 ^ 1024`, and the theorems on the coordinates and the sample points that
are computed bound the coefficients. A number that is not finite (`NaN`, `Infinity`) is
`none`. -/

/-- Rounding of a rational to the nearest integer, a tie going to the even neighbour. -/
def roundHalfEven (q : ℚ) : ℤ :=
  if q - ⌊q⌋ < 1 / 2 then ⌊q⌋
  else if 1 / 2 < q - ⌊q⌋ then ⌊q⌋ + 1
  else if ⌊q⌋ % 2 = 0 then ⌊q⌋ else ⌊q⌋ + 1

/-- The binary64 number nearest to `q` (round to nearest, ties to even): for
`2 ^ L ≤ |q| < 2 ^ (L + 1)` the binary64 numbers around `q` are the integer multiples of
`2 ^ (L - 52)`. -/
def fl (q : ℚ) : ℚ :=
  if q = 0 then 0
  else (roundHalfEven (q / 2 ^ (Int.log 2 |q| - 52)) : ℚ) * 2 ^ (Int.log 2 |q| - 52)

/-- The quotient `n / m` of two finite numbers, rounded; it is `Infinity` or `NaN`, hence not
finite, when `m` is zero. -/
def jsDiv (n m : ℚ) : Option ℚ :=
  if m = 0 then none else some (fl (n / m))

/-- The number denoted by the string `v.toFixed(2)`: below `10 ^ 21` in magnitude the sign of
`v` followed by `n / 100` for the integer `n` nearest to `|v| * 100`, the larger one in a
tie; from `10 ^ 21` on the string is the ordinary decimal form of `v`, which reads back as
`v`. -/
def toFixed2 (v : ℚ) : ℚ :=
  if 10 ^ 21 ≤ |v| then v
  else if v < 0 then -((⌊-v * 100 + 1 / 2⌋ : ℤ) : ℚ) / 100
  else ((⌊v * 100 + 1 / 2⌋ : ℤ) : ℚ) / 100

/-- The function `parseFloat` on a decimal string denoting `t`: the nearest binary64
number. -/
def parseFloat (t : ℚ) : ℚ := fl t

/-- The object `{ x, y }` returned by `getIntersectionPoint`; a coordinate that is not a
finite number is `none`. -/
structure Point where
  x : Option ℚ
  y : Option ℚ
deriving DecidableEq

/-- `getIntersectionPoint` (lines 137-142); the result `none` is `null`. -/
def getIntersectionPoint (m1 b1 m2 b2 : Int) : Option Point :=
  if m1 = m2 then none
  else
    let x : Option ℚ := jsDiv (fl ((b2 : ℚ) - (b1 : ℚ))) (fl ((m1 : ℚ) - (m2 : ℚ)))
    let y : Option ℚ := x.map (fun x => fl (fl ((m1 : ℚ) * x) + (b1 : ℚ)))
    some { x := x.map (fun x => parseFloat (toFixed2 x)),
           y := y.map (fun y => parseFloat (toFixed2 y)) }

/-- One element of the array built by `generateDataPoints`; its numbers are finite binary64
values. -/
structure DataPoint where
  x : ℚ
  y1 : ℚ
  y2 : ℚ
deriving DecidableEq

/-- The object literal pushed at lines 148-152 for the loop variable `x`: each product and
each sum is rounded to binary64. -/
def dataPoint (m1 b1 m2 b2 : Int) (x : ℚ) : DataPoint :=
  { x := x,
    y1 := fl (fl ((m1 : ℚ) * x) + (b1 : ℚ)),
    y2 := fl (fl ((m2 : ℚ) * x) + (b2 : ℚ)) }

/-- The `for` loop of `generateDataPoints` (lines 147-153), entered with loop variable `x`
and the array `data` built so far; `x++` is a binary64 addition. `fuel` bounds the number of
times the loop condition is tested, and `none` means the bound was reached. -/
def generateDataPoints.loop (m1 b1 m2 b2 : Int) (range : ℚ) :
    Nat → ℚ → List DataPoint → Option (List DataPoint)
  | 0, _, _ => none
  | fuel + 1, x, data =>
    if x ≤ range then
      generateDataPoints.loop m1 b1 m2 b2 range fuel (fl (x + 1))
        (data ++ [dataPoint m1 b1 m2 b2 x])
    else some data

/-- `generateDataPoints` (lines 144-155). -/
def generateDataPoints (fuel : Nat) (m1 b1 m2 b2 limit : Int) : Option (List DataPoint) :=
  let range := fl ((limit : ℚ) + 2)
  generateDataPoints.loop m1 b1 m2 b2 range fuel (-range) []

/-! ## Quiz logic -/

/-- The local `correctType` of `checkQuiz` (line 194): the label that belongs to a problem
type. -/
def correctType (type : String) : String :=
  if type = "one" then "One Solution"
  else if type = "no" then "No Solution"
  else "Infinite Solutions"

/-- The loop `do { newD = Math.floor(Math.random() * 10) - 5; } while (newD === newB);`
(line 181). `k` is the index of the next call of `Math.random()`, and `fuel` bounds the
number of iterations: `none` means the bound was reached with every draw equal to `newB`. -/
def redrawD (rnd : Nat → Sample) (newB : Int) : Nat → Nat → Option Int
  | 0, _ => none
  | fuel + 1, k =>
    let newD : Int := (floorTimes (rnd k) 10 : Int) - 5
    if newD = newB then redrawD rnd newB fuel (k + 1) else some newD

/-- The local `type` of `generateQuizProblem` (lines 166-167). The index is below 3, so the
array access never yields `undefined`. -/
def quizType (rnd : Nat → Sample) : String :=
  let types := ["one", "no", "infinite"]
  types.getD (floorTimes (rnd 0) types.length) "undefined"

/-- `generateQuizProblem` (lines 165-191). `rnd k` is the value of the `k`-th call of
`Math.random()` made by this invocation, counted from 0 in evaluation order; `fuel` bounds
the iterations of the redraw loop, and `none` means the bound was reached. -/
def generateQuizProblem (fuel : Nat) (rnd : Nat → Sample) (s : AppState) : Option AppState :=
  let type := quizType rnd
  let style := if gtHalf (rnd 1) then "equation" else "graph"
  if type = "one" then
    let newA : Int := (floorTimes (rnd 2) 8 : Int) - 4
    let newC : Int :=
      newA + ((floorTimes (rnd 3) 3 : Int) + 1) * (if gtHalf (rnd 4) then 1 else -1)
    let newB : Int := (floorTimes (rnd 5) 10 : Int) - 5
    let newD : Int := (floorTimes (rnd 6) 10 : Int) - 5
    some { s with
      quizProblem := some { a := newA, b := newB, c := newC, d := newD, type := type,
                            style := style },
      quizFeedback := none }
  else if type = "no" then
    let newA : Int := (floorTimes (rnd 2) 8 : Int) - 4
    let newC : Int := newA
    let newB : Int := (floorTimes (rnd 3) 10 : Int) - 5
    match redrawD rnd newB fuel 4 with
    | none => none
    | some newD =>
      some { s with
        quizProblem := some { a := newA, b := newB, c := newC, d := newD, type := type,
                              style := style },
        quizFeedback := none }
  else
    let newA : Int := (floorTimes (rnd 2) 8 : Int) - 4
    let newC : Int := newA
    let newB : Int := (floorTimes (rnd 3) 10 : Int) - 5
    let newD : Int := newB
    some { s with
      quizProblem := some { a := newA, b := newB, c := newC, d := newD, type := type,
                            style := style },
      quizFeedback := none }

/-- The string method `startsWith`: `pre` is an initial segment of `s`, compared character by
character. The source only asks whether a label starts with one of the three ASCII labels
of `correctType`, for which the comparison of UTF-16 code units is the same. -/
def startsWith (s pre : String) : Bool := pre.data.isPrefixOf s.data

/-- The local `isCorrect` of `checkQuiz` (lines 194-195) for the stored problem. -/
def isCorrect (quizProblem : QuizProblem) (selectedType : String) : Bool :=
  startsWith selectedType (correctType quizProblem.type)

/-- `checkQuiz` (lines 193-208). With no stored problem the access `quizProblem.type` throws a
`TypeError`; that outcome is `none`. -/
def checkQuiz (selectedType : String) (s : AppState) : Option AppState :=
  match s.quizProblem with
  | none => none
  | some quizProblem =>
    if isCorrect quizProblem selectedType then
      some { s with
        score := s.score + 1,
        quizFeedback := some { correct := true, msg := "Correct! You're getting it!" } }
    else
      some { s with
        quizFeedback := some {
          correct := false,
          msg :=
            if quizProblem.style = "graph" then
              "Look closely at the lines. Do they cross, never touch, or overlap?"
            else
              "Not quite. Look closely at the variable terms (" ++ toString quizProblem.a ++
                "x and " ++ toString quizProblem.c ++ "x)." } }

/-- The local `options` of `renderPractice` (lines 421-427): the labels of the three answer
buttons for a presentation style. -/
def options (style : String) : List String :=
  if style = "equation" then
    ["One Solution", "No Solution", "Infinite Solutions"]
  else
    ["One Solution: Lines Intersect", "No Solution: Lines are Parallel",
     "Infinite Solutions: Lines are Identical"]

/-! ## Challenge logic -/

/-- The local `selectedGoal` of `generateChallenge` (lines 223-224). The index is below 3,
so the array access never yields `undefined`. -/
def selectedGoal (rnd : Nat → Sample) : String :=
  let goals := ["No Solution", "Infinite Solutions", "One Solution"]
  goals.getD (floorTimes (rnd 0) goals.length) "undefined"

/-- The local `editMode` of `generateChallenge` (line 225). -/
def editMode (rnd : Nat → Sample) : Nat := floorTimes (rnd 1) 3

/-- The local `targetFunc` of `generateChallenge` (lines 244-251). -/
def targetFunc (selectedGoal : String) : Coeffs → Bool :=
  if selectedGoal = "No Solution" then
    fun curr => decide (curr.a = curr.c) && decide (curr.b ≠ curr.d)
  else if selectedGoal = "Infinite Solutions" then
    fun curr => decide (curr.a = curr.c) && decide (curr.b = curr.d)
  else
    fun curr => decide (curr.a ≠ curr.c)

/-- `generateChallenge` (lines 222-257). `rnd k` is the value of the `k`-th call of
`Math.random()` made by this invocation, counted from 0 in evaluation order. -/
def generateChallenge (rnd : Nat → Sample) (s : AppState) : AppState :=
  let newA : Int := (floorTimes (rnd 2) 10 : Int) - 5
  let newB : Int := (floorTimes (rnd 3) 20 : Int) - 10
  let newC : Int := (floorTimes (rnd 4) 10 : Int) - 5
  let newD : Int := (floorTimes (rnd 5) 20 : Int) - 10
  if editMode rnd = 0 then
    { s with
      challenge := some { goal := selectedGoal rnd, locked := ["a", "b"],
                          target := targetFunc (selectedGoal rnd) },
      a := newA, b := newB, c := 0, d := 0,
      challengeSuccess := false, challengeFeedback := none }
  else if editMode rnd = 1 then
    { s with
      challenge := some { goal := selectedGoal rnd, locked := ["c", "d"],
                          target := targetFunc (selectedGoal rnd) },
      a := 0, b := 0, c := newC, d := newD,
      challengeSuccess := false, challengeFeedback := none }
  else
    { s with
      challenge := some { goal := selectedGoal rnd, locked := [],
                          target := targetFunc (selectedGoal rnd) },
      a := 0, b := 0, c := 0, d := 0,
      challengeSuccess := false, challengeFeedback := none }

/-- `submitChallenge` (lines 259-268). -/
def submitChallenge (s : AppState) : AppState :=
  match s.challenge with
  | none => s
  | some challenge =>
    if challenge.target { a := s.a, b := s.b, c := s.c, d := s.d } then
      { s with challengeSuccess := true, challengeFeedback := some "success" }
    else
      { s with challengeSuccess := false, challengeFeedback := some "error" }

/-! ## Concrete draws used as test inputs -/

/-- A sample whose scaled floor is a chosen `k < n`. -/
def sampleOf (k n : Nat) (h : k < n) : Sample := { num := k, den := n, lt := h }

/-- Draws for `generateQuizProblem`: type index 1 (`'no'`), style `'graph'`, `newA = 0`,
`newB = 0`, a first `newD = 0` that is rejected and a second `newD = 2`. -/
def quizDraws : Nat → Sample
  | 0 => sampleOf 1 3 (by decide)
  | 1 => sampleOf 0 1 (by decide)
  | 2 => sampleOf 4 8 (by decide)
  | 3 => sampleOf 5 10 (by decide)
  | 4 => sampleOf 5 10 (by decide)
  | _ => sampleOf 7 10 (by decide)

/-- Draws for `generateChallenge`: goal index 0 (`'No Solution'`), edit mode 0, and the
coefficient draws `newA = 3`, `newB = 5`, `newC = 2`, `newD = 2`. -/
def challengeDraws : Nat → Sample
  | 0 => sampleOf 0 3 (by decide)
  | 1 => sampleOf 0 3 (by decide)
  | 2 => sampleOf 8 10 (by decide)
  | 3 => sampleOf 15 20 (by decide)
  | 4 => sampleOf 7 10 (by decide)
  | _ => sampleOf 12 20 (by decide)

/-- Draws for `generateChallenge`: goal index 2 (`'One Solution'`), edit mode 0, and the
coefficient draws `newA = 3`, `newB = 5`, `newC = 2`, `newD = 2`. -/
def presolvedDraws : Nat → Sample
  | 0 => sampleOf 2 3 (by decide)
  | 1 => sampleOf 0 3 (by decide)
  | 2 => sampleOf 8 10 (by decide)
  | 3 => sampleOf 15 20 (by decide)
  | 4 => sampleOf 7 10 (by decide)
  | _ => sampleOf 12 20 (by decide)

/-- Draws for `generateChallenge`: goal index 1 (`'Infinite Solutions'`), edit mode 2, and the
coefficient draws `newA = 3`, `newB = 5`, `newC = 2`, `newD = 2`. -/
def editBothDraws : Nat → Sample
  | 0 => sampleOf 1 3 (by decide)
  | 1 => sampleOf 2 3 (by decide)
  | 2 => sampleOf 8 10 (by decide)
  | 3 => sampleOf 15 20 (by decide)
  | 4 => sampleOf 7 10 (by decide)
  | _ => sampleOf 12 20 (by decide)

/-- A state holding the quiz problem `3x + 1 = 3x - 2` of type `'no'`, shown as a graph, with
two points scored so far. -/
def quizState : AppState :=
  { AppState.initial with
    mode := "practice",
    quizProblem := some { a := 3, b := 1, c := 3, d := -2, type := "no", style := "graph" },
    score := 2 }

/-! ## Basic facts about the random source -/

theorem floorTimes_lt (u : Sample) (n : Nat) (hn : 0 < n) : floorTimes u n < n := by
  unfold floorTimes
  have hd : 0 < u.den := Nat.lt_of_le_of_lt (Nat.zero_le _) u.lt
  rw [Nat.div_lt_iff_lt_mul hd]
  exact Nat.mul_lt_mul_of_pos_right u.lt hn |>.trans_eq (Nat.mul_comm _ _)

theorem floorTimes_sampleOf (k n : Nat) (h : k < n) : floorTimes (sampleOf k n h) n = k := by
  unfold floorTimes sampleOf
  have hn : 0 < n := Nat.lt_of_le_of_lt (Nat.zero_le _) h
  exact Nat.mul_div_cancel k hn

/-! ## Facts about the quiz generator -/

theorem redrawD_ne (rnd : Nat → Sample) (newB : Int) :
    ∀ (fuel k : Nat) (newD : Int), redrawD rnd newB fuel k = some newD → newD ≠ newB := by
  intro fuel
  induction fuel with
  | zero => intro k newD h; simp [redrawD] at h
  | succ n ih =>
    intro k newD h
    simp only [redrawD] at h
    split at h
    · exact ih _ _ h
    · rename_i hne
      cases h
      exact hne

theorem redrawD_isSome (rnd : Nat → Sample) (newB : Int) :
    ∀ (fuel k i : Nat), i < fuel → (floorTimes (rnd (k + i)) 10 : Int) - 5 ≠ newB →
      ∃ newD, redrawD rnd newB fuel k = some newD := by
  intro fuel
  induction fuel with
  | zero => intro k i hi; omega
  | succ n ih =>
    intro k i hi hne
    simp only [redrawD]
    split
    · rename_i heq
      cases i with
      | zero => exact absurd heq hne
      | succ j =>
        exact ih (k + 1) j (by omega) (by rw [show k + 1 + j = k + (j + 1) by omega]; exact hne)
    · exact ⟨_, rfl⟩

theorem quizType_cases (rnd : Nat → Sample) :
    quizType rnd = "one" ∨ quizType rnd = "no" ∨ quizType rnd = "infinite" := by
  have h3 : floorTimes (rnd 0) 3 < 3 := floorTimes_lt _ _ (by decide)
  unfold quizType
  simp only [List.length_cons, List.length_nil]
  generalize floorTimes (rnd 0) 3 = i at h3 ⊢
  interval_cases i <;> simp

/-- Every problem that `generateQuizProblem` stores carries the drawn type and classifies as
the label of that type. -/
theorem generateQuizProblem_sound (fuel : Nat) (rnd : Nat → Sample) (s s' : AppState)
    (hgen : generateQuizProblem fuel rnd s = some s') :
    ∃ p, s'.quizProblem = some p ∧ p.type = quizType rnd ∧
      getSolutionType p.a p.b p.c p.d = correctType p.type := by
  unfold generateQuizProblem at hgen
  rcases quizType_cases rnd with h | h | h
  · -- type 'one'
    simp only [h, if_true] at hgen
    cases hgen
    have hne : ((floorTimes (rnd 2) 8 : Int) - 4) ≠
        ((floorTimes (rnd 2) 8 : Int) - 4) +
          ((floorTimes (rnd 3) 3 : Int) + 1) * (if gtHalf (rnd 4) then 1 else -1) := by
      split <;> omega
    refine ⟨_, rfl, h.symm, ?_⟩
    simp only [getSolutionType, correctType]
    rw [if_neg hne]
    simp
  · -- type 'no'
    rw [h, if_neg (by decide), if_pos rfl] at hgen
    dsimp only at hgen
    cases hd : redrawD rnd ((floorTimes (rnd 3) 10 : Int) - 5) fuel 4 with
    | none =>
      rw [hd] at hgen
      cases hgen
    | some newD =>
      rw [hd] at hgen
      cases hgen
      have hne := redrawD_ne _ _ _ _ _ hd
      refine ⟨_, rfl, h.symm, ?_⟩
      simp [getSolutionType, correctType, Ne.symm hne]
  · -- type 'infinite'
    rw [h, if_neg (by decide), if_neg (by decide)] at hgen
    cases hgen
    refine ⟨_, rfl, h.symm, ?_⟩
    simp [getSolutionType, correctType]

/-- With a type other than `'no'`, or with a draw for `newD` that differs from `newB` among
the first `fuel` ones, `generateQuizProblem` returns a state. -/
theorem generateQuizProblem_isSome (fuel : Nat) (rnd : Nat → Sample) (s : AppState)
    (h : quizType rnd ≠ "no" ∨ ∃ i, i < fuel ∧
      (floorTimes (rnd (4 + i)) 10 : Int) - 5 ≠ (floorTimes (rnd 3) 10 : Int) - 5) :
    ∃ s', generateQuizProblem fuel rnd s = some s' := by
  unfold generateQuizProblem
  rcases quizType_cases rnd with ht | ht | ht
  · simp only [ht, if_true]
    exact ⟨_, rfl⟩
  · rcases h with h | ⟨i, hi, hne⟩
    · exact absurd ht h
    · rw [ht, if_neg (by decide), if_pos rfl]
      obtain ⟨newD, hd⟩ := redrawD_isSome rnd _ fuel 4 i hi hne
      dsimp only
      rw [hd]
      exact ⟨_, rfl⟩
  · rw [ht, if_neg (by decide), if_neg (by decide)]
    exact ⟨_, rfl⟩

/-! ## Facts about the redraw loop and the answer check -/

/-- While every draw equals `newB` the loop keeps running: the bound is reached. -/
theorem redrawD_none (rnd : Nat → Sample) (newB : Int) :
    ∀ (fuel k : Nat), (∀ j, j < fuel → (floorTimes (rnd (k + j)) 10 : Int) - 5 = newB) →
      redrawD rnd newB fuel k = none := by
  intro fuel
  induction fuel with
  | zero => intro k _; rfl
  | succ n ih =>
    intro k h
    simp only [redrawD]
    rw [if_pos (by simpa using h 0 (by omega))]
    apply ih
    intro j hj
    rw [show k + 1 + j = k + (j + 1) by omega]
    exact h (j + 1) (by omega)

/-- The loop returns the first draw that differs from `newB`, as soon as the bound allows
that many iterations. -/
theorem redrawD_first (rnd : Nat → Sample) (newB : Int) :
    ∀ (fuel k i : Nat), (∀ j, j < i → (floorTimes (rnd (k + j)) 10 : Int) - 5 = newB) →
      (floorTimes (rnd (k + i)) 10 : Int) - 5 ≠ newB → i < fuel →
      redrawD rnd newB fuel k = some ((floorTimes (rnd (k + i)) 10 : Int) - 5) := by
  intro fuel
  induction fuel with
  | zero => intro k i _ _ hi; omega
  | succ n ih =>
    intro k i hfirst hne hi
    simp only [redrawD]
    cases i with
    | zero =>
      rw [if_neg (by simpa using hne)]
      rfl
    | succ m =>
      rw [if_pos (by simpa using hfirst 0 (by omega))]
      have e : ∀ j, k + 1 + j = k + (j + 1) := fun j => by omega
      have := ih (k + 1) m (fun j hj => by rw [e]; exact hfirst (j + 1) (by omega))
        (by rw [e]; exact hne) (by omega)
      rw [e] at this
      exact this

theorem draw_range (u : Sample) :
    -5 ≤ (floorTimes u 10 : Int) - 5 ∧ (floorTimes u 10 : Int) - 5 ≤ 4 := by
  have := floorTimes_lt u 10 (by decide)
  constructor <;> omega

theorem startsWith_iff (sel pre : String) :
    startsWith sel pre = true ↔ ∃ rest : String, sel = pre ++ rest := by
  unfold startsWith
  rw [List.isPrefixOf_iff_prefix]
  constructor
  · rintro ⟨t, ht⟩
    refine ⟨⟨t⟩, ?_⟩
    apply String.ext
    rw [String.data_append, ht]
  · rintro ⟨rest, rfl⟩
    exact ⟨rest.data, by rw [String.data_append]⟩

theorem correctType_cases (type : String) :
    (type = "one" ∧ correctType type = "One Solution") ∨
      (type ≠ "one" ∧ type = "no" ∧ correctType type = "No Solution") ∨
      (type ≠ "one" ∧ type ≠ "no" ∧ correctType type = "Infinite Solutions") := by
  unfold correctType
  by_cases h1 : type = "one"
  · exact Or.inl ⟨h1, by rw [if_pos h1]⟩
  · by_cases h2 : type = "no"
    · exact Or.inr (Or.inl ⟨h1, h2, by rw [if_neg h1, if_pos h2]⟩)
    · exact Or.inr (Or.inr ⟨h1, h2, by rw [if_neg h1, if_neg h2]⟩)

/-! ## Facts about the challenge handlers -/

theorem selectedGoal_cases (rnd : Nat → Sample) :
    selectedGoal rnd = "No Solution" ∨ selectedGoal rnd = "Infinite Solutions" ∨
      selectedGoal rnd = "One Solution" := by
  have h3 : floorTimes (rnd 0) 3 < 3 := floorTimes_lt _ _ (by decide)
  unfold selectedGoal
  simp only [List.length_cons, List.length_nil]
  generalize floorTimes (rnd 0) 3 = i at h3 ⊢
  interval_cases i <;> simp

theorem editMode_lt (rnd : Nat → Sample) : editMode rnd < 3 :=
  floorTimes_lt _ _ (by decide)

theorem generateChallenge_challenge (rnd : Nat → Sample) (s : AppState) :
    ∃ ch, (generateChallenge rnd s).challenge = some ch ∧ ch.goal = selectedGoal rnd ∧
      ch.target = targetFunc (selectedGoal rnd) := by
  unfold generateChallenge
  split
  · exact ⟨_, rfl, rfl, rfl⟩
  · split
    · exact ⟨_, rfl, rfl, rfl⟩
    · exact ⟨_, rfl, rfl, rfl⟩

theorem submitChallenge_eq (s : AppState) :
    submitChallenge s =
      { s with challengeSuccess := (submitChallenge s).challengeSuccess,
               challengeFeedback := (submitChallenge s).challengeFeedback } := by
  unfold submitChallenge
  split
  · rfl
  · split <;> rfl

theorem submitChallenge_coeffs (s : AppState) :
    (submitChallenge s).a = s.a ∧ (submitChallenge s).b = s.b ∧ (submitChallenge s).c = s.c ∧
      (submitChallenge s).d = s.d ∧ (submitChallenge s).challenge = s.challenge := by
  rw [submitChallenge_eq]
  exact ⟨rfl, rfl, rfl, rfl, rfl⟩

theorem submitChallenge_iterate (n : Nat) (s : AppState) :
    (submitChallenge^[n] s).a = s.a ∧ (submitChallenge^[n] s).b = s.b ∧
      (submitChallenge^[n] s).c = s.c ∧ (submitChallenge^[n] s).d = s.d ∧
      (submitChallenge^[n] s).challenge = s.challenge := by
  induction n with
  | zero => exact ⟨rfl, rfl, rfl, rfl, rfl⟩
  | succ n ih =>
    rw [Function.iterate_succ_apply']
    obtain ⟨h1, h2, h3, h4, h5⟩ := submitChallenge_coeffs (submitChallenge^[n] s)
    obtain ⟨i1, i2, i3, i4, i5⟩ := ih
    exact ⟨h1.trans i1, h2.trans i2, h3.trans i3, h4.trans i4, h5.trans i5⟩

theorem submitChallenge_idem (s : AppState) :
    submitChallenge (submitChallenge s) = submitChallenge s := by
  cases hc : s.challenge with
  | none => simp [submitChallenge, hc]
  | some ch =>
    cases ht : ch.target { a := s.a, b := s.b, c := s.c, d := s.d } <;>
      simp [submitChallenge, hc, ht]

/-- In edit mode 2 `generateChallenge` stores the drawn goal with nothing locked and sets all
four coefficients to 0. -/
theorem generateChallenge_editBoth (rnd : Nat → Sample) (s : AppState)
    (hm : editMode rnd = 2) :
    generateChallenge rnd s =
      { s with
        challenge := some { goal := selectedGoal rnd, locked := [],
                            target := targetFunc (selectedGoal rnd) },
        a := 0, b := 0, c := 0, d := 0,
        challengeSuccess := false, challengeFeedback := none } := by
  unfold generateChallenge
  rw [if_neg (by omega), if_neg (by omega)]

/-- In edit mode 0 `generateChallenge` keeps the draws for `a` and `b` and sets `c` and `d`
to 0. -/
theorem generateChallenge_editRight (rnd : Nat → Sample) (s : AppState)
    (hm : editMode rnd = 0) :
    generateChallenge rnd s =
      { s with
        challenge := some { goal := selectedGoal rnd, locked := ["a", "b"],
                            target := targetFunc (selectedGoal rnd) },
        a := (floorTimes (rnd 2) 10 : Int) - 5, b := (floorTimes (rnd 3) 20 : Int) - 10,
        c := 0, d := 0,
        challengeSuccess := false, challengeFeedback := none } := by
  unfold generateChallenge
  rw [if_pos hm]

/-- The predicate built for a goal holds exactly on the coefficients that classify as that
goal, for each of the three goals. -/
theorem targetFunc_eq_classify (a b c d : Int) :
    (targetFunc "No Solution" { a := a, b := b, c := c, d := d } = true ↔
      getSolutionType a b c d = "No Solution") ∧
    (targetFunc "Infinite Solutions" { a := a, b := b, c := c, d := d } = true ↔
      getSolutionType a b c d = "Infinite Solutions") ∧
    (targetFunc "One Solution" { a := a, b := b, c := c, d := d } = true ↔
      getSolutionType a b c d = "One Solution") := by
  unfold getSolutionType
  by_cases h1 : a = c <;> by_cases h2 : b = d <;> simp [targetFunc, h1, h2]

/-! ## Facts about binary64 rounding and `getIntersectionPoint` -/

theorem roundHalfEven_err (q : ℚ) : |(roundHalfEven q : ℚ) - q| ≤ 1 / 2 := by
  have h1 := Int.floor_le q
  have h2 := Int.lt_floor_add_one q
  unfold roundHalfEven
  rw [abs_le]
  split_ifs with ha hb hc
  · constructor <;> linarith
  · push_cast; constructor <;> linarith
  · constructor <;> linarith
  · push_cast; constructor <;> linarith

/-- A rational strictly between `n - 1/2` and `n + 1/2` rounds to `n`. -/
theorem roundHalfEven_eq_of_lt (q : ℚ) (n : ℤ) (h1 : (n : ℚ) - 1 / 2 < q)
    (h2 : q < (n : ℚ) + 1 / 2) : roundHalfEven q = n := by
  have hf1 := Int.floor_le q
  have hf2 := Int.lt_floor_add_one q
  have hlo : n - 1 ≤ ⌊q⌋ := by
    have : ((n - 1 : ℤ) : ℚ) < (⌊q⌋ : ℚ) + 1 := by push_cast; linarith
    have : ((n - 1 : ℤ) : ℚ) < ((⌊q⌋ + 1 : ℤ) : ℚ) := by push_cast; push_cast at this; linarith
    have := Int.cast_lt.mp this
    omega
  have hhi : ⌊q⌋ ≤ n := by
    have : (⌊q⌋ : ℚ) < ((n + 1 : ℤ) : ℚ) := by push_cast; linarith
    have := Int.cast_lt.mp this
    omega
  have hcase : ⌊q⌋ = n ∨ ⌊q⌋ = n - 1 := by omega
  unfold roundHalfEven
  rcases hcase with h | h
  · rw [h]
    rw [if_pos (by linarith)]
  · rw [h]
    have e : ((n - 1 : ℤ) : ℚ) = (n : ℚ) - 1 := by push_cast; ring
    rw [if_neg (by rw [e]; linarith), if_pos (by rw [e]; linarith)]
    ring

theorem two_zpow_pos (e : ℤ) : (0 : ℚ) < 2 ^ e := zpow_pos (by norm_num) e

theorem fl_err (q : ℚ) : |fl q - q| ≤ |q| / 2 ^ 53 := by
  unfold fl
  split_ifs with h0
  · simp [h0]
  · have hq : 0 < |q| := abs_pos.mpr h0
    have hL : ((2 : ℕ) : ℚ) ^ Int.log 2 |q| ≤ |q| := Int.zpow_log_le_self (by norm_num) hq
    generalize Int.log 2 |q| = L at hL ⊢
    have hpos := two_zpow_pos (L - 52)
    have hr := roundHalfEven_err (q / 2 ^ (L - 52))
    have hsplit : (2 : ℚ) ^ L = 2 ^ (L - 52) * 2 ^ 52 := by
      rw [← zpow_natCast (2 : ℚ) 52, ← zpow_add₀ (by norm_num : (2 : ℚ) ≠ 0)]
      congr 1
      push_cast
      ring
    have e : (roundHalfEven (q / 2 ^ (L - 52)) : ℚ) * 2 ^ (L - 52) - q =
        ((roundHalfEven (q / 2 ^ (L - 52)) : ℚ) - q / 2 ^ (L - 52)) * 2 ^ (L - 52) := by
      field_simp
    rw [e, abs_mul, abs_of_pos hpos]
    have h3 : |(roundHalfEven (q / 2 ^ (L - 52)) : ℚ) - q / 2 ^ (L - 52)| * 2 ^ (L - 52) ≤
        1 / 2 * 2 ^ (L - 52) := mul_le_mul_of_nonneg_right hr hpos.le
    have h4 : (2 : ℚ) ^ (L - 52) * 2 ^ 52 ≤ |q| := by
      rw [← hsplit]; exact_mod_cast hL
    rw [le_div_iff₀ (by norm_num : (0 : ℚ) < 2 ^ 53)]
    nlinarith

theorem fl_near (q M : ℚ) (hM : |q| ≤ M) : |fl q - q| ≤ M / 2 ^ 53 :=
  (fl_err q).trans (div_le_div_of_nonneg_right hM (by norm_num))

theorem fl_ne_zero (q : ℚ) (hq : q ≠ 0) : fl q ≠ 0 := by
  intro h
  have h1 := fl_err q
  have hpos : 0 < |q| := abs_pos.mpr hq
  rw [h, zero_sub, abs_neg, le_div_iff₀ (by norm_num : (0 : ℚ) < 2 ^ 53)] at h1
  nlinarith

/-- Evaluation of `fl` once the binade of `q` and the rounded significand are known. -/
theorem fl_eval (q : ℚ) (L n : ℤ) (h1 : (2 : ℚ) ^ L ≤ |q|) (h2 : |q| < (2 : ℚ) ^ (L + 1))
    (hn : roundHalfEven (q / 2 ^ (L - 52)) = n) : fl q = (n : ℚ) * 2 ^ (L - 52) := by
  have hq : 0 < |q| := lt_of_lt_of_le (two_zpow_pos L) h1
  have h0 : q ≠ 0 := abs_pos.mp hq
  have hlog : Int.log 2 |q| = L := by
    apply le_antisymm
    · have : Int.log 2 |q| < L + 1 :=
        (Int.lt_zpow_iff_log_lt (by norm_num) hq).mp (by exact_mod_cast h2)
      omega
    · exact (Int.zpow_le_iff_le_log (by norm_num) hq).mp (by exact_mod_cast h1)
  unfold fl
  rw [if_neg h0, hlog, hn]

/-- A number `m * 2 ^ k` with `|m| < 2 ^ 53` is a binary64 number: rounding leaves it. -/
theorem fl_exact (m k : ℤ) (hm : |m| < 2 ^ 53) : fl ((m : ℚ) * 2 ^ k) = (m : ℚ) * 2 ^ k := by
  by_cases hm0 : m = 0
  · simp [hm0, fl]
  have hk := two_zpow_pos k
  have hq0 : (m : ℚ) * 2 ^ k ≠ 0 := mul_ne_zero (Int.cast_ne_zero.mpr hm0) hk.ne'
  have hq : 0 < |(m : ℚ) * 2 ^ k| := abs_pos.mpr hq0
  have hlt : |(m : ℚ) * 2 ^ k| < ((2 : ℕ) : ℚ) ^ (53 + k) := by
    rw [abs_mul, abs_of_pos hk, zpow_add₀ (by norm_num)]
    apply mul_lt_mul_of_pos_right _ hk
    have : ((|m| : ℤ) : ℚ) < ((2 ^ 53 : ℤ) : ℚ) := Int.cast_lt.mpr hm
    push_cast at this
    norm_num at this ⊢
    exact this
  have hL : Int.log 2 |(m : ℚ) * 2 ^ k| < 53 + k :=
    (Int.lt_zpow_iff_log_lt (by norm_num) hq).mp hlt
  unfold fl
  rw [if_neg hq0]
  generalize Int.log 2 |(m : ℚ) * 2 ^ k| = L at hL
  obtain ⟨j, hj⟩ : ∃ j : ℕ, k = (L - 52) + j := ⟨(k - (L - 52)).toNat, by omega⟩
  have hsplit : (2 : ℚ) ^ k = 2 ^ (L - 52) * 2 ^ j := by
    rw [hj, zpow_add₀ (by norm_num), zpow_natCast]
  have hpos := two_zpow_pos (L - 52)
  have e : (m : ℚ) * 2 ^ k / 2 ^ (L - 52) = ((m * 2 ^ j : ℤ) : ℚ) := by
    rw [hsplit]
    push_cast
    field_simp
    ring
  rw [e, roundHalfEven_eq_of_lt _ (m * 2 ^ j) (by linarith) (by linarith), hsplit]
  push_cast
  ring

theorem fl_int (m : ℤ) (hm : |m| < 2 ^ 53) : fl (m : ℚ) = (m : ℚ) := by
  have := fl_exact m 0 hm
  simpa using this

theorem toFixed2_err (v : ℚ) : |toFixed2 v - v| ≤ 1 / 200 := by
  unfold toFixed2
  split_ifs with h1 h2
  · simp
  · have hf1 := Int.floor_le (-v * 100 + 1 / 2)
    have hf2 := Int.lt_floor_add_one (-v * 100 + 1 / 2)
    rw [abs_le]
    constructor <;> linarith
  · have hf1 := Int.floor_le (v * 100 + 1 / 2)
    have hf2 := Int.lt_floor_add_one (v * 100 + 1 / 2)
    rw [abs_le]
    constructor <;> linarith

theorem toFixed2_int (m : ℤ) (hm : |m| < 10 ^ 21) : toFixed2 (m : ℚ) = (m : ℚ) := by
  have hlt : ¬ ((10 : ℚ) ^ 21 ≤ |(m : ℚ)|) := by
    have : ((|m| : ℤ) : ℚ) < ((10 ^ 21 : ℤ) : ℚ) := Int.cast_lt.mpr hm
    push_cast at this
    exact not_le.mpr this
  unfold toFixed2
  rw [if_neg hlt]
  have e1 : (-(m : ℚ) * 100 + 1 / 2) = ((-m * 100 : ℤ) : ℚ) + 1 / 2 := by push_cast; ring
  have e2 : ((m : ℚ) * 100 + 1 / 2) = ((m * 100 : ℤ) : ℚ) + 1 / 2 := by push_cast; ring
  have f1 : ∀ z : ℤ, ⌊(z : ℚ) + 1 / 2⌋ = z := by
    intro z
    rw [Int.floor_eq_iff]
    constructor <;> linarith
  rw [e1, e2, f1, f1]
  split_ifs <;> (push_cast; ring)

theorem abs_le_of_near (p q M e : ℚ) (h : |p - q| ≤ e) (hq : |q| ≤ M) : |p| ≤ M + e := by
  rw [abs_le] at *
  constructor <;> linarith

theorem abs_cast_le (z : ℤ) (n : ℕ) (h : z.natAbs ≤ n) : |(z : ℚ)| ≤ (n : ℚ) := by
  rw [← Int.cast_abs, Int.abs_eq_natAbs]
  exact_mod_cast h

/-- The value of `getIntersectionPoint` on coefficients of magnitude at most 1000: the two
differences are computed exactly. -/
theorem getIntersectionPoint_eq (a b c d : Int) (hac : a ≠ c)
    (ha : a.natAbs ≤ 1000) (hb : b.natAbs ≤ 1000) (hc : c.natAbs ≤ 1000)
    (hd : d.natAbs ≤ 1000) :
    getIntersectionPoint a b c d =
      some { x := some (parseFloat (toFixed2 (fl (((d : ℚ) - b) / ((a : ℚ) - c))))),
             y := some (parseFloat (toFixed2
               (fl (fl ((a : ℚ) * fl (((d : ℚ) - b) / ((a : ℚ) - c))) + b)))) } := by
  have en : fl ((d : ℚ) - b) = (d : ℚ) - b := by
    have := fl_int (d - b) (by rw [abs_lt]; constructor <;> omega)
    push_cast at this
    exact this
  have em : fl ((a : ℚ) - c) = (a : ℚ) - c := by
    have := fl_int (a - c) (by rw [abs_lt]; constructor <;> omega)
    push_cast at this
    exact this
  have hm0 : (a : ℚ) - c ≠ 0 := sub_ne_zero.mpr (Int.cast_injective.ne hac)
  unfold getIntersectionPoint jsDiv
  rw [if_neg hac, en, em]
  simp only [if_neg hm0, Option.map_some']

/-- The exact abscissa is at most 2000 in magnitude when `b` and `d` are at most 1000. -/
theorem exact_x_bound (a b c d : Int) (hac : a ≠ c)
    (hb : b.natAbs ≤ 1000) (hd : d.natAbs ≤ 1000) :
    |((d : ℚ) - b) / ((a : ℚ) - c)| ≤ 2000 := by
  have hn : |(d : ℚ) - b| ≤ 2000 := by
    have := abs_cast_le (d - b) 2000 (by omega)
    push_cast at this
    exact this
  have hm : 1 ≤ |(a : ℚ) - c| := by
    have h1 : (1 : ℤ) ≤ |a - c| := Int.one_le_abs (sub_ne_zero.mpr hac)
    have : ((1 : ℤ) : ℚ) ≤ ((|a - c| : ℤ) : ℚ) := Int.cast_le.mpr h1
    push_cast at this
    exact this
  rw [abs_div, div_le_iff₀ (by linarith)]
  nlinarith

/-- Accuracy of the first coordinate: the rounding of the quotient, the rounding to two
digits and the rounding of the parsed decimal add up to at most `1/200 + 4002 / 2 ^ 53`. -/
theorem near_x_of_bounds (x : ℚ) (hx : |x| ≤ 2000) :
    |fl (toFixed2 (fl x)) - x| ≤ 1 / 200 + 1 / 10 ^ 9 := by
  have h1 := fl_near x 2000 hx
  have hxh := abs_le_of_near _ _ _ _ h1 hx
  have h2 := toFixed2_err (fl x)
  have ht := abs_le_of_near _ _ _ _ h2 hxh
  have h3 := fl_near (toFixed2 (fl x)) _ ht
  rw [abs_le] at h1 h2 h3 ⊢
  norm_num at h1 h2 h3 ⊢
  constructor <;> linarith

/-- Accuracy of the second coordinate. -/
theorem near_y_of_bounds (a b x : ℚ) (ha : |a| ≤ 1000) (hb : |b| ≤ 1000) (hx : |x| ≤ 2000) :
    |fl (toFixed2 (fl (fl (a * fl x) + b))) - (a * x + b)| ≤ 1 / 200 + 1 / 10 ^ 9 := by
  have h1 := fl_near x 2000 hx
  have hxh := abs_le_of_near _ _ _ _ h1 hx
  have hax : |a * fl x| ≤ 1000 * (2000 + 2000 / 2 ^ 53) := by
    rw [abs_mul]
    exact mul_le_mul ha hxh (abs_nonneg _) (by norm_num)
  have h4 := fl_near (a * fl x) _ hax
  have hp := abs_le_of_near _ _ _ _ h4 hax
  have hd : |a * fl x - a * x| ≤ 1000 * (2000 / 2 ^ 53) := by
    rw [← mul_sub, abs_mul]
    exact mul_le_mul ha h1 (abs_nonneg _) (by norm_num)
  have hs : |fl (a * fl x) + b| ≤ 2002001 := by
    rw [abs_le] at hp hb ⊢
    norm_num at hp
    constructor <;> linarith
  have h5 := fl_near (fl (a * fl x) + b) _ hs
  have hyh : |fl (fl (a * fl x) + b)| ≤ 2002002 := by
    have := abs_le_of_near _ _ _ _ h5 hs
    norm_num at this ⊢
    linarith
  have h6 := toFixed2_err (fl (fl (a * fl x) + b))
  have ht := abs_le_of_near _ _ _ _ h6 hyh
  have h7 := fl_near (toFixed2 (fl (fl (a * fl x) + b))) _ ht
  rw [abs_le] at h4 hd h5 h6 h7 ⊢
  norm_num at h4 hd h5 h6 h7 ⊢
  constructor <;> linarith

theorem fl_ofInt_lit (m : ℤ) (q : ℚ) (hq : q = (m : ℚ)) (hm : |m| < 2 ^ 53) : fl q = q := by
  rw [hq]; exact fl_int m hm

theorem toFixed2_ofInt_lit (m : ℤ) (q : ℚ) (hq : q = (m : ℚ)) (hm : |m| < 10 ^ 21) :
    toFixed2 q = q := by
  rw [hq]; exact toFixed2_int m hm

theorem intersection_example :
    getIntersectionPoint 2 1 (-1) 4 = some { x := some 1, y := some 3 } := by
  have f1 : fl 1 = 1 := fl_ofInt_lit 1 1 (by norm_num) (by norm_num)
  have f2 : fl 2 = 2 := fl_ofInt_lit 2 2 (by norm_num) (by norm_num)
  have f3 : fl 3 = 3 := fl_ofInt_lit 3 3 (by norm_num) (by norm_num)
  have t1 : toFixed2 1 = 1 := toFixed2_ofInt_lit 1 1 (by norm_num) (by norm_num)
  have t3 : toFixed2 3 = 3 := toFixed2_ofInt_lit 3 3 (by norm_num) (by norm_num)
  rw [getIntersectionPoint_eq _ _ _ _ (by decide) (by decide) (by decide) (by decide)
    (by decide)]
  norm_num [parseFloat, f1, f2, f3, t1, t3]

theorem fl_eighth : fl (1 / 8) = 1 / 8 := by
  have := fl_exact 1 (-3) (by norm_num)
  norm_num at this
  simpa using this

theorem toFixed2_eighth : toFixed2 (1 / 8) = 13 / 100 := by
  unfold toFixed2
  have e : ((1 : ℚ) / 8 * 100 + 1 / 2) = ((13 : ℤ) : ℚ) := by norm_num
  rw [if_neg (by norm_num [abs_of_pos]), if_neg (by norm_num), e, Int.floor_intCast]
  norm_num

theorem fl_thirteen_hundredths :
    fl (13 / 100) = 1170935903116329 / 9007199254740992 := by
  have h := fl_eval (13 / 100) (-3) 4683743612465316
    (by rw [abs_of_pos (by norm_num)]; norm_num)
    (by rw [abs_of_pos (by norm_num)]; norm_num)
    (roundHalfEven_eq_of_lt _ _ (by norm_num) (by norm_num))
  rw [h]
  norm_num

theorem intersection_eighth :
    getIntersectionPoint 8 0 0 1 =
      some { x := some (1170935903116329 / 9007199254740992), y := some 1 } := by
  have f1 : fl 1 = 1 := fl_ofInt_lit 1 1 (by norm_num) (by norm_num)
  have t1 : toFixed2 1 = 1 := toFixed2_ofInt_lit 1 1 (by norm_num) (by norm_num)
  rw [getIntersectionPoint_eq _ _ _ _ (by decide) (by decide) (by decide) (by decide)
    (by decide)]
  norm_num [parseFloat, f1, t1, fl_eighth, toFixed2_eighth, fl_thirteen_hundredths]

theorem roundHalfEven_tie_even (f : ℤ) (hf : f % 2 = 0) :
    roundHalfEven ((f : ℚ) + 1 / 2) = f := by
  have hfl : ⌊(f : ℚ) + 1 / 2⌋ = f := by
    rw [Int.floor_eq_iff]
    constructor <;> linarith
  unfold roundHalfEven
  rw [hfl, if_neg (by norm_num), if_neg (by norm_num), if_pos hf]

theorem fl_two_pow_53_add_one : fl 9007199254740993 = 9007199254740992 := by
  have h := fl_eval 9007199254740993 53 4503599627370496
    (by rw [abs_of_pos (by norm_num)]; norm_num)
    (by rw [abs_of_pos (by norm_num)]; norm_num)
    (by
      have e : (9007199254740993 : ℚ) / 2 ^ ((53 : ℤ) - 52) =
          ((4503599627370496 : ℤ) : ℚ) + 1 / 2 := by norm_num
      rw [e]
      exact roundHalfEven_tie_even _ (by decide))
  rw [h]
  norm_num

theorem intersection_large :
    getIntersectionPoint 1 (-2) 0 9007199254740991 =
      some { x := some 9007199254740992, y := some 9007199254740990 } := by
  have f1 : fl 1 = 1 := fl_ofInt_lit 1 1 (by norm_num) (by norm_num)
  have f2 : fl 9007199254740992 = 9007199254740992 := by
    have := fl_exact 1 53 (by norm_num)
    norm_num at this
    exact this
  have f3 : fl 9007199254740990 = 9007199254740990 :=
    fl_ofInt_lit 9007199254740990 _ (by norm_num) (by norm_num)
  have t2 : toFixed2 9007199254740992 = 9007199254740992 :=
    toFixed2_ofInt_lit 9007199254740992 _ (by norm_num) (by norm_num)
  have t3 : toFixed2 9007199254740990 = 9007199254740990 :=
    toFixed2_ofInt_lit 9007199254740990 _ (by norm_num) (by norm_num)
  unfold getIntersectionPoint jsDiv parseFloat
  norm_num [f1, f2, f3, t2, t3, fl_two_pow_53_add_one]

/-! ## Facts about the sample loop -/

/-- A product plus an intercept is computed exactly while `R * |m| + |b|` stays below
`2 ^ 53` and the abscissa is an integer of magnitude at most `R`. -/
theorem line_exact (m b R z : Int) (hz : |z| ≤ R)
    (h : R * (m.natAbs : Int) + (b.natAbs : Int) < 2 ^ 53) :
    fl (fl ((m : ℚ) * (z : ℚ)) + (b : ℚ)) = ((m * z + b : Int) : ℚ) := by
  have hm : (m.natAbs : Int) = |m| := Int.natCast_natAbs m
  have hb : (b.natAbs : Int) = |b| := Int.natCast_natAbs b
  rw [hm, hb] at h
  have hmz : |m * z| ≤ R * |m| := by
    rw [abs_mul, mul_comm]
    exact mul_le_mul_of_nonneg_right hz (abs_nonneg m)
  have hb0 : 0 ≤ |b| := abs_nonneg b
  have hsum : |m * z + b| ≤ |m * z| + |b| := abs_add _ _
  have e1 : fl ((m : ℚ) * (z : ℚ)) = ((m * z : Int) : ℚ) := by
    have := fl_int (m * z) (by omega)
    push_cast at this ⊢
    exact this
  rw [e1]
  have := fl_int (m * z + b) (by omega)
  push_cast at this ⊢
  exact this

theorem dataPoint_exact (m1 b1 m2 b2 R z : Int) (hz : |z| ≤ R)
    (h1 : R * (m1.natAbs : Int) + (b1.natAbs : Int) < 2 ^ 53)
    (h2 : R * (m2.natAbs : Int) + (b2.natAbs : Int) < 2 ^ 53) :
    dataPoint m1 b1 m2 b2 (z : ℚ) =
      { x := (z : ℚ), y1 := ((m1 * z + b1 : Int) : ℚ), y2 := ((m2 * z + b2 : Int) : ℚ) } := by
  unfold dataPoint
  rw [line_exact m1 b1 R z hz h1, line_exact m2 b2 R z hz h2]

/-- While the loop variable stays below `2 ^ 53` it counts exactly, and the loop pushes one
point for each integer from `x` to `R`. -/
theorem generateDataPoints.loop_eq (m1 b1 m2 b2 R : Int) (hR : R + 1 < 2 ^ 53) :
    ∀ (n fuel : Nat) (x : Int) (data : List DataPoint),
      (R + 1 - x).toNat = n → n < fuel → -R ≤ x →
      generateDataPoints.loop m1 b1 m2 b2 (R : ℚ) fuel (x : ℚ) data =
        some (data ++ (List.range n).map (fun i : Nat =>
          dataPoint m1 b1 m2 b2 ((x + i : Int) : ℚ))) := by
  intro n
  induction n with
  | zero =>
    intro fuel x data h hf _
    obtain ⟨f, rfl⟩ : ∃ f, fuel = f + 1 := ⟨fuel - 1, by omega⟩
    have hx : ¬ ((x : ℚ) ≤ (R : ℚ)) := by
      rw [Int.cast_le]
      omega
    simp only [generateDataPoints.loop]
    rw [if_neg hx]
    simp
  | succ n ih =>
    intro fuel x data h hf hlo
    obtain ⟨f, rfl⟩ : ∃ f, fuel = f + 1 := ⟨fuel - 1, by omega⟩
    have hx : (x : ℚ) ≤ (R : ℚ) := by
      rw [Int.cast_le]
      omega
    have hnext : fl ((x : ℚ) + 1) = ((x + 1 : Int) : ℚ) := by
      have := fl_int (x + 1) (by rw [abs_lt]; constructor <;> omega)
      push_cast at this ⊢
      exact this
    simp only [generateDataPoints.loop]
    rw [if_pos hx, hnext, ih f (x + 1) _ (by omega) (by omega) (by omega),
      List.range_succ_eq_map]
    simp only [List.map_cons, List.map_map, List.append_assoc, List.singleton_append,
      Nat.cast_zero, add_zero]
    congr 3
    apply List.map_congr_left
    intro i _
    simp only [Function.comp, Nat.cast_succ]
    have e : x + 1 + (i : Int) = x + ((i : Int) + 1) := by ring
    rw [e]

/-- With a range below `2 ^ 53` and enough fuel, `generateDataPoints` returns one point for
each integer abscissa from `-(limit + 2)` to `limit + 2`. -/
theorem generateDataPoints_eq (fuel : Nat) (m1 b1 m2 b2 limit : Int) (hl : 0 < limit)
    (hlim : limit + 3 < 2 ^ 53) (hfuel : (2 * (limit + 2) + 1).toNat < fuel) :
    generateDataPoints fuel m1 b1 m2 b2 limit =
      some ((List.range (2 * (limit + 2) + 1).toNat).map (fun i : Nat =>
        dataPoint m1 b1 m2 b2 ((-(limit + 2) + i : Int) : ℚ))) := by
  have hrange : fl ((limit : ℚ) + 2) = ((limit + 2 : Int) : ℚ) := by
    have := fl_int (limit + 2) (by rw [abs_lt]; constructor <;> omega)
    push_cast at this ⊢
    exact this
  unfold generateDataPoints
  dsimp only
  rw [hrange, ← Int.cast_neg,
    generateDataPoints.loop_eq m1 b1 m2 b2 (limit + 2) (by omega)
      (2 * (limit + 2) + 1).toNat fuel (-(limit + 2)) [] (by congr 1; ring) hfuel (by omega)]
  simp

theorem fl_zero : fl 0 = 0 := by
  unfold fl
  rw [if_pos rfl]

theorem fl_three_times_max_safe : fl 27021597764222973 = 27021597764222972 := by
  have h := fl_eval 27021597764222973 54 6755399441055743
    (by rw [abs_of_pos (by norm_num)]; norm_num)
    (by rw [abs_of_pos (by norm_num)]; norm_num)
    (roundHalfEven_eq_of_lt _ _ (by norm_num) (by norm_num))
  rw [h]
  norm_num

/-- The last point computed for `(2 ^ 53 - 1) x + 1` and `0x + 0`, at `x = 3`. -/
theorem dataPoint_max_safe :
    dataPoint 9007199254740991 1 0 0 3 = { x := 3, y1 := 27021597764222972, y2 := 0 } := by
  unfold dataPoint
  norm_num [fl_zero, fl_three_times_max_safe]

/-! ## Theorems -/

/-- C1: `getSolutionType a b c d` is `'One Solution'` exactly when `a ≠ c`,
`'Infinite Solutions'` exactly when `a = c` and `b = d`, `'No Solution'` exactly when `a = c`
and `b ≠ d`; so every input gets exactly one of the three labels. -/
theorem getSolutionType_spec (a b c d : Int) :
    (getSolutionType a b c d = "One Solution" ↔ a ≠ c) ∧
    (getSolutionType a b c d = "Infinite Solutions" ↔ (a = c ∧ b = d)) ∧
    (getSolutionType a b c d = "No Solution" ↔ (a = c ∧ b ≠ d)) ∧
    ((getSolutionType a b c d = "One Solution" ∧
        getSolutionType a b c d ≠ "Infinite Solutions" ∧
        getSolutionType a b c d ≠ "No Solution") ∨
      (getSolutionType a b c d ≠ "One Solution" ∧
        getSolutionType a b c d = "Infinite Solutions" ∧
        getSolutionType a b c d ≠ "No Solution") ∨
      (getSolutionType a b c d ≠ "One Solution" ∧
        getSolutionType a b c d ≠ "Infinite Solutions" ∧
        getSolutionType a b c d = "No Solution")) := by
  unfold getSolutionType
  by_cases h1 : a = c <;> by_cases h2 : b = d <;> simp [h1, h2]

/-- C2: whatever the random draws, every problem `{a, b, c, d, type}` that
`generateQuizProblem` builds classifies as the label of its type: type `'one'` with
`'One Solution'`, type `'no'` with `'No Solution'`, type `'infinite'` with
`'Infinite Solutions'`. A problem is built whenever the type is not `'no'` or one of the
first `fuel` draws for `newD` differs from `newB`. -/
theorem generateQuizProblem_classifies (fuel : Nat) (rnd : Nat → Sample) (s : AppState) :
    (∀ s' p, generateQuizProblem fuel rnd s = some s' → s'.quizProblem = some p →
      (getSolutionType p.a p.b p.c p.d = correctType p.type ∧
        ((p.type = "one" ∧ getSolutionType p.a p.b p.c p.d = "One Solution") ∨
          (p.type = "no" ∧ getSolutionType p.a p.b p.c p.d = "No Solution") ∨
          (p.type = "infinite" ∧
            getSolutionType p.a p.b p.c p.d = "Infinite Solutions")))) ∧
    ((quizType rnd ≠ "no" ∨ ∃ i, i < fuel ∧
        (floorTimes (rnd (4 + i)) 10 : Int) - 5 ≠ (floorTimes (rnd 3) 10 : Int) - 5) →
      ∃ s' p, generateQuizProblem fuel rnd s = some s' ∧ s'.quizProblem = some p ∧
        getSolutionType p.a p.b p.c p.d = correctType p.type) := by
  constructor
  · intro s' p hgen hp
    obtain ⟨q, hq, hty, hcl⟩ := generateQuizProblem_sound fuel rnd s s' hgen
    rw [hp] at hq
    cases hq
    refine ⟨hcl, ?_⟩
    rw [hcl, hty]
    rcases quizType_cases rnd with h | h | h
    · exact Or.inl ⟨h, by rw [h]; rfl⟩
    · exact Or.inr (Or.inl ⟨h, by rw [h]; rfl⟩)
    · exact Or.inr (Or.inr ⟨h, by rw [h]; rfl⟩)
  · intro h
    obtain ⟨s', hs'⟩ := generateQuizProblem_isSome fuel rnd s h
    obtain ⟨p, hp, _, hcl⟩ := generateQuizProblem_sound fuel rnd s s' hs'
    exact ⟨s', p, hs', hp, hcl⟩

/-- Witness for C2: the draws `quizDraws` pick type `'no'`, reject one value of `newD` and
build the problem `0x + 0 = 0x + 2`, which classifies as `'No Solution'`. -/
theorem generateQuizProblem_classifies_witness :
    generateQuizProblem 2 quizDraws AppState.initial =
      some { AppState.initial with
        quizProblem := some { a := 0, b := 0, c := 0, d := 2, type := "no", style := "graph" },
        quizFeedback := none } ∧
    getSolutionType 0 0 0 2 = correctType "no" ∧
    ∃ s' p, generateQuizProblem 2 quizDraws AppState.initial = some s' ∧
      s'.quizProblem = some p ∧ getSolutionType p.a p.b p.c p.d = correctType p.type :=
  ⟨rfl,
    ((generateQuizProblem_classifies 2 quizDraws AppState.initial).1
      { AppState.initial with
        quizProblem := some { a := 0, b := 0, c := 0, d := 2, type := "no", style := "graph" },
        quizFeedback := none }
      { a := 0, b := 0, c := 0, d := 2, type := "no", style := "graph" } rfl rfl).1,
    (generateQuizProblem_classifies 2 quizDraws AppState.initial).2
      (Or.inr ⟨1, by decide, by decide⟩)⟩

/-- C3, as stated, fails. For `8x + 0 = 0x + 1` the exact solution has `x = 1/8`;
`toFixed(2)` turns the computed `0.125` into `'0.13'` and `parseFloat` returns the binary64
number nearest to 0.13, which lies above 0.13, so the returned `x` is further than 0.005 from
`1/8`. For `x - 2 = 0x + 9007199254740991` the difference `d - b = 2 ^ 53 + 1` is rounded to
`2 ^ 53`, and both returned coordinates are off by 1. -/
theorem getIntersectionPoint_accuracy_counterexample :
    (getIntersectionPoint 8 0 0 1 =
        some { x := some (1170935903116329 / 9007199254740992), y := some 1 } ∧
      (1 : ℚ) / 200 <
        |1170935903116329 / 9007199254740992 - ((1 : ℚ) - 0) / ((8 : ℚ) - 0)|) ∧
    (getIntersectionPoint 1 (-2) 0 9007199254740991 =
        some { x := some 9007199254740992, y := some 9007199254740990 } ∧
      (1 : ℚ) / 200 <
        |9007199254740992 - ((9007199254740991 : ℚ) - (-2)) / ((1 : ℚ) - 0)| ∧
      (1 : ℚ) / 200 <
        |9007199254740990 -
          ((1 : ℚ) * (((9007199254740991 : ℚ) - (-2)) / ((1 : ℚ) - 0)) + (-2))|) := by
  refine ⟨⟨intersection_eighth, ?_⟩, intersection_large, ?_, ?_⟩
  · rw [abs_of_pos (by norm_num)]
    norm_num
  · rw [abs_of_neg (by norm_num)]
    norm_num
  · rw [abs_of_neg (by norm_num)]
    norm_num

/-- C3, amended: for integers `a ≠ c` of magnitude at most 1000, `getIntersectionPoint a b c d`
is a point with finite coordinates: `x` is the binary64 number nearest to the two-digit
rounding of the computed quotient `(d - b) / (a - c)`, `y` the one nearest to the two-digit
rounding of the computed `a * x + b`, and each lies within `0.005 + 10⁻⁹` of the exact
solution `(d - b) / (a - c)`, `a * ((d - b) / (a - c)) + b`. For `a = 2, b = 1, c = -1, d = 4`
the result is `(1, 3)`. -/
theorem getIntersectionPoint_accuracy (a b c d : Int) (hac : a ≠ c)
    (ha : a.natAbs ≤ 1000) (hb : b.natAbs ≤ 1000) (hc : c.natAbs ≤ 1000)
    (hd : d.natAbs ≤ 1000) :
    (∃ X Y : ℚ, getIntersectionPoint a b c d = some { x := some X, y := some Y } ∧
      X = parseFloat (toFixed2 (fl (((d : ℚ) - b) / ((a : ℚ) - c)))) ∧
      Y = parseFloat (toFixed2 (fl (fl ((a : ℚ) * fl (((d : ℚ) - b) / ((a : ℚ) - c))) + b))) ∧
      |X - ((d : ℚ) - b) / ((a : ℚ) - c)| ≤ 1 / 200 + 1 / 10 ^ 9 ∧
      |Y - ((a : ℚ) * (((d : ℚ) - b) / ((a : ℚ) - c)) + b)| ≤ 1 / 200 + 1 / 10 ^ 9) ∧
    getIntersectionPoint 2 1 (-1) 4 = some { x := some 1, y := some 3 } := by
  have hx := exact_x_bound a b c d hac hb hd
  have ha' : |(a : ℚ)| ≤ 1000 := by exact_mod_cast abs_cast_le a 1000 ha
  have hb' : |(b : ℚ)| ≤ 1000 := by exact_mod_cast abs_cast_le b 1000 hb
  exact ⟨⟨_, _, getIntersectionPoint_eq a b c d hac ha hb hc hd, rfl, rfl, near_x_of_bounds _ hx,
    near_y_of_bounds _ _ _ ha' hb' hx⟩, intersection_example⟩

/-- Witness for C3, amended: the equation `8x + 0 = 0x + 1` meets the hypotheses, and its
returned point is within `0.005 + 10⁻⁹` of `(1/8, 1)`. -/
theorem getIntersectionPoint_accuracy_witness :
    (8 : Int) ≠ 0 ∧
    ∃ X Y : ℚ, getIntersectionPoint 8 0 0 1 = some { x := some X, y := some Y } ∧
      |X - (((1 : Int) : ℚ) - ((0 : Int) : ℚ)) / (((8 : Int) : ℚ) - ((0 : Int) : ℚ))| ≤
        1 / 200 + 1 / 10 ^ 9 ∧
      |Y - (((8 : Int) : ℚ) *
          ((((1 : Int) : ℚ) - ((0 : Int) : ℚ)) / (((8 : Int) : ℚ) - ((0 : Int) : ℚ))) +
            ((0 : Int) : ℚ))| ≤ 1 / 200 + 1 / 10 ^ 9 :=
  ⟨by decide,
    match (getIntersectionPoint_accuracy 8 0 0 1 (by decide) (by decide) (by decide)
      (by decide) (by decide)).1 with
    | ⟨X, Y, h, _, _, hX, hY⟩ => ⟨X, Y, h, hX, hY⟩⟩

/-- C4: `getIntersectionPoint a b c d` is `null` exactly when `a = c`; it is a point exactly
when `getSolutionType a b c d` is `'One Solution'`; and whenever the division is reached, a
point is returned and the divisor, the computed `a - c`, is not zero. -/
theorem getIntersectionPoint_null_iff (a b c d : Int) :
    (getIntersectionPoint a b c d = none ↔ a = c) ∧
    ((getIntersectionPoint a b c d).isSome = true ↔
      getSolutionType a b c d = "One Solution") ∧
    (a = c ∨ (fl ((a : ℚ) - (c : ℚ)) ≠ 0 ∧
      ∃ p : Point, getIntersectionPoint a b c d = some p)) := by
  by_cases h : a = c
  · subst h
    simp [getIntersectionPoint, getSolutionType]
    split <;> decide
  · have hq : fl ((a : ℚ) - (c : ℚ)) ≠ 0 :=
      fl_ne_zero _ (sub_ne_zero.mpr (Int.cast_injective.ne h))
    refine ⟨by simp [getIntersectionPoint, h], by simp [getIntersectionPoint, getSolutionType, h],
      Or.inr ⟨hq, ?_⟩⟩
    unfold getIntersectionPoint
    rw [if_neg h]
    exact ⟨_, rfl⟩

/-- C5, as stated, fails: for `(2 ^ 53 - 1) x + 1` and `limit = 1` the seventh point, at
`x = 3`, has `y1 = 27021597764222972`, because the product `27021597764222973` and then the
sum are rounded to binary64, while `a * x + b` is `27021597764222974`. -/
theorem generateDataPoints_rounding_counterexample :
    ∃ pts, generateDataPoints 8 9007199254740991 1 0 0 1 = some pts ∧
      pts.length = 7 ∧
      pts[6]? = some { x := 3, y1 := 27021597764222972, y2 := 0 } ∧
      (27021597764222972 : ℚ) ≠ 9007199254740991 * 3 + 1 := by
  refine ⟨_, generateDataPoints_eq 8 9007199254740991 1 0 0 1 (by decide) (by norm_num)
    (by decide), ?_, ?_, by norm_num⟩
  · rw [List.length_map, List.length_range]
    rfl
  · have e7 : (2 * ((1 : Int) + 2) + 1).toNat = 7 := rfl
    rw [e7, List.getElem?_map, List.getElem?_range (by decide : 6 < 7)]
    simp only [Option.map_some', Option.some.injEq]
    have e : (((-((1 : Int) + 2) + ((6 : Nat) : Int) : Int)) : ℚ) = 3 := by norm_num
    rw [e]
    exact dataPoint_max_safe

/-- C5, amended: for a positive `limit` with `limit + 3`, `(limit + 2) * |a| + |b|` and
`(limit + 2) * |c| + |d|` all below `2 ^ 53`, and with enough fuel for the `2*(limit+2)+1`
iterations, `generateDataPoints a b c d limit` returns the list of the points
`{x, y1 = a*x + b, y2 = c*x + d}` for `x = -(limit+2), ..., limit+2` in that order; it has
`2*(limit+2)+1` points, its `x` values increase strictly, they are exactly the integers of
`[-(limit+2), limit+2]`, and `x` occurs among them exactly when `-x` does. -/
theorem generateDataPoints_spec (fuel : Nat) (a b c d limit : Int) (hl : 0 < limit)
    (hlim : limit + 3 < 2 ^ 53)
    (hab : (limit + 2) * (a.natAbs : Int) + (b.natAbs : Int) < 2 ^ 53)
    (hcd : (limit + 2) * (c.natAbs : Int) + (d.natAbs : Int) < 2 ^ 53)
    (hfuel : (2 * (limit + 2) + 1).toNat < fuel) :
    ∃ pts, generateDataPoints fuel a b c d limit = some pts ∧
      pts = (List.range (2 * (limit + 2) + 1).toNat).map (fun i : Nat =>
        ({ x := ((-(limit + 2) + i : Int) : ℚ),
           y1 := ((a * (-(limit + 2) + i) + b : Int) : ℚ),
           y2 := ((c * (-(limit + 2) + i) + d : Int) : ℚ) } : DataPoint)) ∧
      (pts.length : Int) = 2 * (limit + 2) + 1 ∧
      (pts.map DataPoint.x).Pairwise (fun u v => u < v) ∧
      (∀ v : ℚ, v ∈ pts.map DataPoint.x ↔
        ∃ z : Int, v = (z : ℚ) ∧ -(limit + 2) ≤ z ∧ z ≤ limit + 2) ∧
      (∀ v : ℚ, v ∈ pts.map DataPoint.x ↔ -v ∈ pts.map DataPoint.x) := by
  have hpts : (List.range (2 * (limit + 2) + 1).toNat).map (fun i : Nat =>
        dataPoint a b c d ((-(limit + 2) + i : Int) : ℚ)) =
      (List.range (2 * (limit + 2) + 1).toNat).map (fun i : Nat =>
        ({ x := ((-(limit + 2) + i : Int) : ℚ),
           y1 := ((a * (-(limit + 2) + i) + b : Int) : ℚ),
           y2 := ((c * (-(limit + 2) + i) + d : Int) : ℚ) } : DataPoint)) := by
    apply List.map_congr_left
    intro i hi
    rw [List.mem_range] at hi
    exact dataPoint_exact a b c d (limit + 2) _ (by rw [abs_le]; constructor <;> omega) hab hcd
  have hxs : ((List.range (2 * (limit + 2) + 1).toNat).map (fun i : Nat =>
        ({ x := ((-(limit + 2) + i : Int) : ℚ),
           y1 := ((a * (-(limit + 2) + i) + b : Int) : ℚ),
           y2 := ((c * (-(limit + 2) + i) + d : Int) : ℚ) } : DataPoint))).map DataPoint.x =
      (List.range (2 * (limit + 2) + 1).toNat).map (fun i : Nat =>
        ((-(limit + 2) + i : Int) : ℚ)) := by
    rw [List.map_map]
    rfl
  have hmem : ∀ v : ℚ, v ∈ (List.range (2 * (limit + 2) + 1).toNat).map (fun i : Nat =>
        ((-(limit + 2) + i : Int) : ℚ)) ↔
      ∃ z : Int, v = (z : ℚ) ∧ -(limit + 2) ≤ z ∧ z ≤ limit + 2 := by
    intro v
    simp only [List.mem_map, List.mem_range]
    constructor
    · rintro ⟨i, hi, rfl⟩
      exact ⟨-(limit + 2) + i, rfl, by omega, by omega⟩
    · rintro ⟨z, rfl, h1, h2⟩
      exact ⟨(z + (limit + 2)).toNat, by omega, by congr 1; omega⟩
  refine ⟨_, (generateDataPoints_eq fuel a b c d limit hl hlim hfuel).trans (by rw [hpts]),
    rfl, ?_, ?_, ?_, ?_⟩
  · rw [List.length_map, List.length_range]
    omega
  · rw [hxs, List.pairwise_map]
    refine (List.pairwise_lt_range _).imp (fun h => ?_)
    rw [Int.cast_lt]
    omega
  · rw [hxs]
    exact hmem
  · intro v
    rw [hxs, hmem, hmem]
    constructor
    · rintro ⟨z, rfl, h1, h2⟩
      exact ⟨-z, by push_cast; ring, by omega, by omega⟩
    · rintro ⟨z, hz, h1, h2⟩
      exact ⟨-z, by rw [Int.cast_neg, ← hz, neg_neg], by omega, by omega⟩

/-- Witness for C5, amended: `x + 2` and `3x + 4` with `limit = 1` and fuel 8 meet the
hypotheses, and the result has seven points. -/
theorem generateDataPoints_spec_witness :
    (0 : Int) < 1 ∧ ((1 : Int) + 2) * ((1 : Int).natAbs : Int) + ((2 : Int).natAbs : Int) < 2 ^ 53 ∧
    ∃ pts, generateDataPoints 8 1 2 3 4 1 = some pts ∧ (pts.length : Int) = 2 * (1 + 2) + 1 :=
  ⟨by decide, by decide,
    match generateDataPoints_spec 8 1 2 3 4 1 (by decide) (by decide) (by decide) (by decide)
      (by decide) with
    | ⟨pts, h, _, hlen, _⟩ => ⟨pts, h, hlen⟩⟩

/-- C6: the predicate stored by `generateChallenge` holds on `{a, b, c, d}` exactly when
`a = c` and `b ≠ d` if the goal is `'No Solution'`, when `a = c` and `b = d` if the goal is
`'Infinite Solutions'`, and when `a ≠ c` if the goal is `'One Solution'`; the goal is always
one of the three. With goal `'No Solution'` the predicate holds on `(4, 1, 4, 2)` and fails
on `(4, 1, 5, 2)`. -/
theorem generateChallenge_target (rnd : Nat → Sample) (s : AppState) :
    ∃ ch, (generateChallenge rnd s).challenge = some ch ∧
      ch.target = targetFunc ch.goal ∧
      ((ch.goal = "No Solution" ∧
          ∀ a b c d : Int, ch.target { a := a, b := b, c := c, d := d } = true ↔
            (a = c ∧ b ≠ d)) ∨
        (ch.goal = "Infinite Solutions" ∧
          ∀ a b c d : Int, ch.target { a := a, b := b, c := c, d := d } = true ↔
            (a = c ∧ b = d)) ∨
        (ch.goal = "One Solution" ∧
          ∀ a b c d : Int, ch.target { a := a, b := b, c := c, d := d } = true ↔ a ≠ c)) ∧
      targetFunc "No Solution" { a := 4, b := 1, c := 4, d := 2 } = true ∧
      targetFunc "No Solution" { a := 4, b := 1, c := 5, d := 2 } = false := by
  obtain ⟨ch, hch, hgoal, htarget⟩ := generateChallenge_challenge rnd s
  refine ⟨ch, hch, by rw [htarget, hgoal], ?_, by decide, by decide⟩
  rw [htarget, hgoal]
  rcases selectedGoal_cases rnd with h | h | h
  · exact Or.inl ⟨h, fun a b c d => by simp [h, targetFunc]⟩
  · exact Or.inr (Or.inl ⟨h, fun a b c d => by simp [h, targetFunc]⟩)
  · exact Or.inr (Or.inr ⟨h, fun a b c d => by simp [h, targetFunc]⟩)

/-- C7: after `generateChallenge` a challenge is set, `challengeSuccess` is `false` and
`challengeFeedback` is `null`. `submitChallenge` with no challenge returns the state
unchanged; with a challenge it sets `challengeSuccess = true` and feedback `'success'`
exactly when the predicate holds on the current coefficients, and `challengeSuccess = false`
and feedback `'error'` exactly when it does not. -/
theorem challenge_state_machine (rnd : Nat → Sample) (s : AppState) :
    ((∃ ch, (generateChallenge rnd s).challenge = some ch) ∧
      (generateChallenge rnd s).challengeSuccess = false ∧
      (generateChallenge rnd s).challengeFeedback = none) ∧
    (match s.challenge with
     | none => submitChallenge s = s
     | some ch =>
       (((submitChallenge s).challengeSuccess = true ∧
           (submitChallenge s).challengeFeedback = some "success") ↔
          ch.target { a := s.a, b := s.b, c := s.c, d := s.d } = true) ∧
       (((submitChallenge s).challengeSuccess = false ∧
           (submitChallenge s).challengeFeedback = some "error") ↔
          ch.target { a := s.a, b := s.b, c := s.c, d := s.d } = false)) := by
  constructor
  · obtain ⟨ch, hch, _, _⟩ := generateChallenge_challenge rnd s
    refine ⟨⟨ch, hch⟩, ?_, ?_⟩ <;>
    · unfold generateChallenge
      split
      · rfl
      · split <;> rfl
  · cases hc : s.challenge with
    | none => simp only [submitChallenge, hc]
    | some ch =>
      simp only [submitChallenge, hc]
      cases ht : ch.target { a := s.a, b := s.b, c := s.c, d := s.d } <;> simp

/-- C8: `submitChallenge` changes nothing but `challengeSuccess` and `challengeFeedback`: the
four coefficients and the challenge record are those of the state before; submitting twice
gives the same state as submitting once; and after any number of submissions following
`generateChallenge` the coefficients and the challenge record (with its locked set) are
still the ones `generateChallenge` stored. -/
theorem submitChallenge_frame (rnd : Nat → Sample) (s : AppState) (n : Nat) :
    submitChallenge s =
      { s with challengeSuccess := (submitChallenge s).challengeSuccess,
               challengeFeedback := (submitChallenge s).challengeFeedback } ∧
    ((submitChallenge s).a = s.a ∧ (submitChallenge s).b = s.b ∧
      (submitChallenge s).c = s.c ∧ (submitChallenge s).d = s.d ∧
      (submitChallenge s).challenge = s.challenge) ∧
    submitChallenge (submitChallenge s) = submitChallenge s ∧
    ((submitChallenge^[n] (generateChallenge rnd s)).a = (generateChallenge rnd s).a ∧
      (submitChallenge^[n] (generateChallenge rnd s)).b = (generateChallenge rnd s).b ∧
      (submitChallenge^[n] (generateChallenge rnd s)).c = (generateChallenge rnd s).c ∧
      (submitChallenge^[n] (generateChallenge rnd s)).d = (generateChallenge rnd s).d ∧
      (submitChallenge^[n] (generateChallenge rnd s)).challenge =
        (generateChallenge rnd s).challenge) :=
  ⟨submitChallenge_eq s, submitChallenge_coeffs s, submitChallenge_idem s,
    submitChallenge_iterate n (generateChallenge rnd s)⟩

/-- C9: whatever the draws, the edit mode is 0, 1 or 2; in edit mode 0 the locked set is
`['a', 'b']` and `c` and `d` start at 0; in edit mode 1 the locked set is `['c', 'd']` and
`a` and `b` start at 0; in edit mode 2 the locked set is empty and all four coefficients
start at 0. -/
theorem generateChallenge_locked (rnd : Nat → Sample) (s : AppState) :
    ∃ ch, (generateChallenge rnd s).challenge = some ch ∧
      ((editMode rnd = 0 ∧ ch.locked = ["a", "b"] ∧
          (generateChallenge rnd s).c = 0 ∧ (generateChallenge rnd s).d = 0) ∨
        (editMode rnd = 1 ∧ ch.locked = ["c", "d"] ∧
          (generateChallenge rnd s).a = 0 ∧ (generateChallenge rnd s).b = 0) ∨
        (editMode rnd = 2 ∧ ch.locked = [] ∧
          (generateChallenge rnd s).a = 0 ∧ (generateChallenge rnd s).b = 0 ∧
          (generateChallenge rnd s).c = 0 ∧ (generateChallenge rnd s).d = 0)) := by
  have hm := editMode_lt rnd
  unfold generateChallenge
  split
  · rename_i h0
    exact ⟨_, rfl, Or.inl ⟨h0, rfl, rfl, rfl⟩⟩
  · split
    · rename_i h1
      exact ⟨_, rfl, Or.inr (Or.inl ⟨h1, rfl, rfl, rfl⟩)⟩
    · rename_i h0 h1
      exact ⟨_, rfl, Or.inr (Or.inr ⟨by omega, rfl, rfl, rfl, rfl, rfl⟩)⟩

/-- C10, as stated, fails: with the draws `challengeDraws` (edit mode 0) the locked
coefficient `a` starts at 3, not at 0, and the unlocked coefficient `c` starts at 0 although
the integer drawn for it is 2. -/
theorem generateChallenge_locked_start_counterexample :
    ∃ ch, (generateChallenge challengeDraws AppState.initial).challenge = some ch ∧
      "a" ∈ ch.locked ∧ (generateChallenge challengeDraws AppState.initial).a = 3 ∧
      "c" ∉ ch.locked ∧ (generateChallenge challengeDraws AppState.initial).c = 0 ∧
      (floorTimes (challengeDraws 4) 10 : Int) - 5 = 2 :=
  ⟨{ goal := "No Solution", locked := ["a", "b"], target := targetFunc "No Solution" },
    rfl, by decide, rfl, by decide, rfl, rfl⟩

/-- C10, amended: the four draws give integers with `a, c` in `[-5, 4]` and `b, d` in
`[-10, 9]`; each locked coefficient starts at the integer drawn for it, and each unlocked
coefficient starts at 0. -/
theorem generateChallenge_start_values (rnd : Nat → Sample) (s : AppState) :
    ((-5 ≤ (floorTimes (rnd 2) 10 : Int) - 5 ∧ (floorTimes (rnd 2) 10 : Int) - 5 ≤ 4) ∧
      (-10 ≤ (floorTimes (rnd 3) 20 : Int) - 10 ∧ (floorTimes (rnd 3) 20 : Int) - 10 ≤ 9) ∧
      (-5 ≤ (floorTimes (rnd 4) 10 : Int) - 5 ∧ (floorTimes (rnd 4) 10 : Int) - 5 ≤ 4) ∧
      (-10 ≤ (floorTimes (rnd 5) 20 : Int) - 10 ∧ (floorTimes (rnd 5) 20 : Int) - 10 ≤ 9)) ∧
    ∃ ch, (generateChallenge rnd s).challenge = some ch ∧
      (("a" ∈ ch.locked ∧ (generateChallenge rnd s).a = (floorTimes (rnd 2) 10 : Int) - 5) ∨
        ("a" ∉ ch.locked ∧ (generateChallenge rnd s).a = 0)) ∧
      (("b" ∈ ch.locked ∧ (generateChallenge rnd s).b = (floorTimes (rnd 3) 20 : Int) - 10) ∨
        ("b" ∉ ch.locked ∧ (generateChallenge rnd s).b = 0)) ∧
      (("c" ∈ ch.locked ∧ (generateChallenge rnd s).c = (floorTimes (rnd 4) 10 : Int) - 5) ∨
        ("c" ∉ ch.locked ∧ (generateChallenge rnd s).c = 0)) ∧
      (("d" ∈ ch.locked ∧ (generateChallenge rnd s).d = (floorTimes (rnd 5) 20 : Int) - 10) ∨
        ("d" ∉ ch.locked ∧ (generateChallenge rnd s).d = 0)) := by
  have h2 := floorTimes_lt (rnd 2) 10 (by decide)
  have h3 := floorTimes_lt (rnd 3) 20 (by decide)
  have h4 := floorTimes_lt (rnd 4) 10 (by decide)
  have h5 := floorTimes_lt (rnd 5) 20 (by decide)
  refine ⟨⟨⟨by omega, by omega⟩, ⟨by omega, by omega⟩, ⟨by omega, by omega⟩,
    ⟨by omega, by omega⟩⟩, ?_⟩
  unfold generateChallenge
  split
  · exact ⟨_, rfl, Or.inl ⟨by simp, rfl⟩, Or.inl ⟨by simp, rfl⟩,
      Or.inr ⟨by simp, rfl⟩, Or.inr ⟨by simp, rfl⟩⟩
  · split
    · exact ⟨_, rfl, Or.inr ⟨by simp, rfl⟩, Or.inr ⟨by simp, rfl⟩,
        Or.inl ⟨by simp, rfl⟩, Or.inl ⟨by simp, rfl⟩⟩
    · exact ⟨_, rfl, Or.inr ⟨by simp, rfl⟩, Or.inr ⟨by simp, rfl⟩,
        Or.inr ⟨by simp, rfl⟩, Or.inr ⟨by simp, rfl⟩⟩

/-- C11: with a stored problem, `checkQuiz` judges a label correct exactly when the label
starts with the label of the problem's type (`'one'` gives `'One Solution'`, `'no'` gives
`'No Solution'`, `'infinite'` gives `'Infinite Solutions'`), and the score goes up by 1
exactly when the label is judged correct. Of the three options of either presentation style
exactly one is judged correct, the one that belongs to the problem's type. -/
theorem checkQuiz_spec (s : AppState) (p : QuizProblem) (selectedType : String)
    (hp : s.quizProblem = some p) :
    (∃ s' fb, checkQuiz selectedType s = some s' ∧ s'.quizFeedback = some fb ∧
      (fb.correct = true ↔ ∃ rest : String, selectedType = correctType p.type ++ rest) ∧
      ((fb.correct = true ∧ s'.score = s.score + 1) ∨
        (fb.correct = false ∧ s'.score = s.score))) ∧
    (correctType "one" = "One Solution" ∧ correctType "no" = "No Solution" ∧
      correctType "infinite" = "Infinite Solutions") ∧
    (options "equation").filter (isCorrect p) = [correctType p.type] ∧
    (options "graph").filter (isCorrect p) =
      [if p.type = "one" then "One Solution: Lines Intersect"
       else if p.type = "no" then "No Solution: Lines are Parallel"
       else "Infinite Solutions: Lines are Identical"] ∧
    ((options p.style).filter (isCorrect p)).length = 1 := by
  refine ⟨?_, ⟨rfl, rfl, rfl⟩, ?_, ?_, ?_⟩
  · unfold checkQuiz
    rw [hp]
    dsimp only
    cases hc : isCorrect p selectedType
    · refine ⟨_, _, rfl, rfl, ?_, Or.inr ⟨rfl, rfl⟩⟩
      rw [← startsWith_iff]
      unfold isCorrect at hc
      simp [hc]
    · refine ⟨_, _, rfl, rfl, ?_, Or.inl ⟨rfl, rfl⟩⟩
      rw [← startsWith_iff]
      unfold isCorrect at hc
      simp [hc]
  · rcases correctType_cases p.type with ⟨_, h⟩ | ⟨_, _, h⟩ | ⟨_, _, h⟩ <;>
      · have e : isCorrect p = fun o => startsWith o (correctType p.type) := rfl
        rw [e, h]
        decide
  · rcases correctType_cases p.type with ⟨h1, h⟩ | ⟨h1, h2, h⟩ | ⟨h1, h2, h⟩
    · have e : isCorrect p = fun o => startsWith o (correctType p.type) := rfl
      rw [e, h, if_pos h1]
      decide
    · have e : isCorrect p = fun o => startsWith o (correctType p.type) := rfl
      rw [e, h, if_neg h1, if_pos h2]
      decide
    · have e : isCorrect p = fun o => startsWith o (correctType p.type) := rfl
      rw [e, h, if_neg h1, if_neg h2]
      decide
  · have e : isCorrect p = fun o => startsWith o (correctType p.type) := rfl
    unfold options
    rcases correctType_cases p.type with ⟨_, h⟩ | ⟨_, _, h⟩ | ⟨_, _, h⟩ <;>
      · rw [e, h]
        split <;> decide

/-- Witness for C11: on the stored problem `3x + 1 = 3x - 2` of type `'no'` the label
`'No Solution: Lines are Parallel'` is judged correct and the score goes from 2 to 3. -/
theorem checkQuiz_spec_witness :
    quizState.quizProblem =
      some { a := 3, b := 1, c := 3, d := -2, type := "no", style := "graph" } ∧
    (∃ s', checkQuiz "No Solution: Lines are Parallel" quizState = some s' ∧
      s'.score = 3 ∧ s'.quizFeedback.map QuizFeedback.correct = some true) ∧
    (options "graph").filter
        (isCorrect { a := 3, b := 1, c := 3, d := -2, type := "no", style := "graph" }) =
      ["No Solution: Lines are Parallel"] :=
  ⟨rfl, ⟨_, rfl, rfl, rfl⟩,
    (checkQuiz_spec quizState
      { a := 3, b := 1, c := 3, d := -2, type := "no", style := "graph" }
      "No Solution: Lines are Parallel" rfl).2.2.2.1⟩

/-- C12: in the `'no'` branch, when some draw for `newD` differs from the drawn `newB`, the
redraw loop ends: there is a first such draw, the loop has not ended before it, and from
then on it returns that draw, which differs from `newB` and lies in `[-5, 4]` like `newB`;
`generateQuizProblem` then stores a problem with this `d`. For every `b` there is a draw in
`[-5, 4]` that differs from it. -/
theorem redrawD_terminates (rnd : Nat → Sample) (s : AppState)
    (hno : quizType rnd = "no")
    (hex : ∃ i, (floorTimes (rnd (4 + i)) 10 : Int) - 5 ≠ (floorTimes (rnd 3) 10 : Int) - 5) :
    (-5 ≤ (floorTimes (rnd 3) 10 : Int) - 5 ∧ (floorTimes (rnd 3) 10 : Int) - 5 ≤ 4) ∧
    (∃ i,
      (∀ j, j < i →
        (floorTimes (rnd (4 + j)) 10 : Int) - 5 = (floorTimes (rnd 3) 10 : Int) - 5) ∧
      (floorTimes (rnd (4 + i)) 10 : Int) - 5 ≠ (floorTimes (rnd 3) 10 : Int) - 5 ∧
      (-5 ≤ (floorTimes (rnd (4 + i)) 10 : Int) - 5 ∧
        (floorTimes (rnd (4 + i)) 10 : Int) - 5 ≤ 4) ∧
      (∀ fuel, fuel ≤ i → redrawD rnd ((floorTimes (rnd 3) 10 : Int) - 5) fuel 4 = none) ∧
      (∀ fuel, i < fuel →
        redrawD rnd ((floorTimes (rnd 3) 10 : Int) - 5) fuel 4 =
          some ((floorTimes (rnd (4 + i)) 10 : Int) - 5) ∧
        ∃ s' p, generateQuizProblem fuel rnd s = some s' ∧ s'.quizProblem = some p ∧
          p.b = (floorTimes (rnd 3) 10 : Int) - 5 ∧
          p.d = (floorTimes (rnd (4 + i)) 10 : Int) - 5)) ∧
    (∀ b : Int, ∃ u : Sample, (floorTimes u 10 : Int) - 5 ≠ b ∧
      -5 ≤ (floorTimes u 10 : Int) - 5 ∧ (floorTimes u 10 : Int) - 5 ≤ 4) := by
  classical
  refine ⟨draw_range _, ⟨Nat.find hex, ?_, Nat.find_spec hex, draw_range _, ?_, ?_⟩, ?_⟩
  · intro j hj
    exact not_not.mp (Nat.find_min hex hj)
  · intro fuel hfuel
    apply redrawD_none
    intro j hj
    exact not_not.mp (Nat.find_min hex (by omega))
  · intro fuel hfuel
    have hfirst := redrawD_first rnd ((floorTimes (rnd 3) 10 : Int) - 5) fuel 4 (Nat.find hex)
      (fun j hj => not_not.mp (Nat.find_min hex hj)) (Nat.find_spec hex) hfuel
    refine ⟨hfirst, ?_⟩
    unfold generateQuizProblem
    rw [hno, if_neg (by decide), if_pos rfl]
    dsimp only
    rw [hfirst]
    exact ⟨_, _, rfl, rfl, rfl, rfl⟩
  · intro b
    by_cases hb : b = 0
    · refine ⟨sampleOf 6 10 (by decide), ?_, ?_, ?_⟩ <;>
        · rw [floorTimes_sampleOf]
          omega
    · refine ⟨sampleOf 5 10 (by decide), ?_, ?_, ?_⟩ <;>
        · rw [floorTimes_sampleOf]
          omega

/-- Witness for C12: with the draws `quizDraws` the type is `'no'`, `newB = 0`, the first
draw for `newD` is 0 and the second is 2; every `b` has a differing draw. -/
theorem redrawD_terminates_witness :
    quizType quizDraws = "no" ∧
    (floorTimes (quizDraws (4 + 1)) 10 : Int) - 5 ≠ (floorTimes (quizDraws 3) 10 : Int) - 5 ∧
    redrawD quizDraws 0 1 4 = none ∧ redrawD quizDraws 0 2 4 = some 2 ∧
    ∃ i,
      (floorTimes (quizDraws (4 + i)) 10 : Int) - 5 ≠ (floorTimes (quizDraws 3) 10 : Int) - 5 ∧
      redrawD quizDraws ((floorTimes (quizDraws 3) 10 : Int) - 5) (i + 1) 4 =
        some ((floorTimes (quizDraws (4 + i)) 10 : Int) - 5) :=
  ⟨rfl, by decide, rfl, rfl,
    match (redrawD_terminates quizDraws AppState.initial rfl ⟨1, by decide⟩).2.1 with
    | ⟨i, _, hne, _, _, hf⟩ => ⟨i, hne, (hf (i + 1) (Nat.lt_succ_self i)).1⟩⟩

/-- C13, as stated, fails: in edit mode 2 both `a` and `c` start at 0, so no outcome of the
draws with edit mode 2 and goal `'One Solution'` starts with `a ≠ c`. -/
theorem editBoth_oneSolution_counterexample :
    ¬ ∃ (rnd : Nat → Sample) (s : AppState),
        editMode rnd = 2 ∧ selectedGoal rnd = "One Solution" ∧
        (generateChallenge rnd s).a ≠ (generateChallenge rnd s).c := by
  rintro ⟨rnd, s, hm, _, hne⟩
  rw [generateChallenge_editBoth rnd s hm] at hne
  exact hne rfl

/-- C13, amended: for some outcome of the draws `generateChallenge` in edit mode 0 with goal
`'One Solution'` starts with `a ≠ c` (here `a = 3`, `c = 0`), so that the stored predicate
holds before any edit; in edit mode 2 the coefficients `a` and `c` both start at 0 and the
predicate of goal `'One Solution'` fails on the starting coefficients. -/
theorem oneSolution_presolved :
    (∃ rnd : Nat → Sample, editMode rnd = 0 ∧ selectedGoal rnd = "One Solution" ∧
      ∀ s : AppState,
        (generateChallenge rnd s).a = 3 ∧ (generateChallenge rnd s).c = 0 ∧
        (generateChallenge rnd s).a ≠ (generateChallenge rnd s).c ∧
        ∃ ch, (generateChallenge rnd s).challenge = some ch ∧
          ch.target { a := (generateChallenge rnd s).a, b := (generateChallenge rnd s).b,
                      c := (generateChallenge rnd s).c, d := (generateChallenge rnd s).d } =
            true) ∧
    (∀ (rnd : Nat → Sample) (s : AppState), editMode rnd = 2 →
      (generateChallenge rnd s).a = 0 ∧ (generateChallenge rnd s).c = 0 ∧
      targetFunc "One Solution"
        { a := (generateChallenge rnd s).a, b := (generateChallenge rnd s).b,
          c := (generateChallenge rnd s).c, d := (generateChallenge rnd s).d } = false) := by
  constructor
  · refine ⟨presolvedDraws, rfl, rfl, fun s => ?_⟩
    rw [generateChallenge_editRight presolvedDraws s rfl]
    refine ⟨rfl, rfl, ?_, _, rfl, ?_⟩
    · show (3 : Int) ≠ 0
      decide
    · show targetFunc "One Solution" { a := 3, b := 5, c := 0, d := 0 } = true
      decide
  · intro rnd s hm
    rw [generateChallenge_editBoth rnd s hm]
    refine ⟨rfl, rfl, ?_⟩
    show targetFunc "One Solution" { a := 0, b := 0, c := 0, d := 0 } = false
    decide

/-- Witness for C13, amended: the draws `editBothDraws` have edit mode 2, and the starting
coefficients `a` and `c` are both 0. -/
theorem oneSolution_presolved_witness :
    editMode editBothDraws = 2 ∧
    (generateChallenge editBothDraws AppState.initial).a = 0 ∧
    (generateChallenge editBothDraws AppState.initial).c = 0 :=
  ⟨rfl, (oneSolution_presolved.2 editBothDraws AppState.initial rfl).1,
    (oneSolution_presolved.2 editBothDraws AppState.initial rfl).2.1⟩

/-- C14: for each of the three goals the predicate that `generateChallenge` builds for it
holds on `{a, b, c, d}` exactly when `getSolutionType a b c d` is that goal; the predicate
stored in a generated challenge holds exactly when the coefficients classify as its goal;
and on any coefficients exactly one of the three predicates holds. -/
theorem targetFunc_agrees_with_getSolutionType (rnd : Nat → Sample) (s : AppState)
    (a b c d : Int) :
    ((targetFunc "No Solution" { a := a, b := b, c := c, d := d } = true ↔
        getSolutionType a b c d = "No Solution") ∧
      (targetFunc "Infinite Solutions" { a := a, b := b, c := c, d := d } = true ↔
        getSolutionType a b c d = "Infinite Solutions") ∧
      (targetFunc "One Solution" { a := a, b := b, c := c, d := d } = true ↔
        getSolutionType a b c d = "One Solution")) ∧
    (∃ ch, (generateChallenge rnd s).challenge = some ch ∧
      (ch.target { a := a, b := b, c := c, d := d } = true ↔
        getSolutionType a b c d = ch.goal)) ∧
    ((targetFunc "No Solution" { a := a, b := b, c := c, d := d } = true ∧
        targetFunc "Infinite Solutions" { a := a, b := b, c := c, d := d } = false ∧
        targetFunc "One Solution" { a := a, b := b, c := c, d := d } = false) ∨
      (targetFunc "No Solution" { a := a, b := b, c := c, d := d } = false ∧
        targetFunc "Infinite Solutions" { a := a, b := b, c := c, d := d } = true ∧
        targetFunc "One Solution" { a := a, b := b, c := c, d := d } = false) ∨
      (targetFunc "No Solution" { a := a, b := b, c := c, d := d } = false ∧
        targetFunc "Infinite Solutions" { a := a, b := b, c := c, d := d } = false ∧
        targetFunc "One Solution" { a := a, b := b, c := c, d := d } = true)) := by
  refine ⟨targetFunc_eq_classify a b c d, ?_, ?_⟩
  · obtain ⟨ch, hch, hgoal, htarget⟩ := generateChallenge_challenge rnd s
    refine ⟨ch, hch, ?_⟩
    rw [htarget, hgoal]
    obtain ⟨h1, h2, h3⟩ := targetFunc_eq_classify a b c d
    rcases selectedGoal_cases rnd with h | h | h <;> rw [h]
    · exact h1
    · exact h2
    · exact h3
  · by_cases h1 : a = c <;> by_cases h2 : b = d <;> simp [targetFunc, h1, h2]

/-- C15: in edit mode 2 the four coefficients start at 0. With goal `'Infinite Solutions'`
the stored predicate holds on them and an immediate `submitChallenge` sets
`challengeSuccess = true`; with goal `'No Solution'` or `'One Solution'` the stored predicate
fails on them and an immediate `submitChallenge` leaves `challengeSuccess = false`. -/
theorem editBoth_start (rnd : Nat → Sample) (s : AppState) (hm : editMode rnd = 2) :
    ∃ ch, (generateChallenge rnd s).challenge = some ch ∧
      ((generateChallenge rnd s).a = 0 ∧ (generateChallenge rnd s).b = 0 ∧
        (generateChallenge rnd s).c = 0 ∧ (generateChallenge rnd s).d = 0) ∧
      ((ch.goal = "Infinite Solutions" ∧
          ch.target { a := 0, b := 0, c := 0, d := 0 } = true ∧
          (submitChallenge (generateChallenge rnd s)).challengeSuccess = true ∧
          (submitChallenge (generateChallenge rnd s)).challengeFeedback = some "success") ∨
        (ch.goal = "No Solution" ∧
          ch.target { a := 0, b := 0, c := 0, d := 0 } = false ∧
          (submitChallenge (generateChallenge rnd s)).challengeSuccess = false ∧
          (submitChallenge (generateChallenge rnd s)).challengeFeedback = some "error") ∨
        (ch.goal = "One Solution" ∧
          ch.target { a := 0, b := 0, c := 0, d := 0 } = false ∧
          (submitChallenge (generateChallenge rnd s)).challengeSuccess = false ∧
          (submitChallenge (generateChallenge rnd s)).challengeFeedback = some "error")) := by
  rw [generateChallenge_editBoth rnd s hm]
  refine ⟨_, rfl, ⟨rfl, rfl, rfl, rfl⟩, ?_⟩
  rcases selectedGoal_cases rnd with h | h | h
  · refine Or.inr (Or.inl ⟨h, ?_, ?_, ?_⟩) <;> simp [submitChallenge, h, targetFunc]
  · refine Or.inl ⟨h, ?_, ?_, ?_⟩ <;> simp [submitChallenge, h, targetFunc]
  · refine Or.inr (Or.inr ⟨h, ?_, ?_, ?_⟩) <;> simp [submitChallenge, h, targetFunc]

/-- Witness for C15: the draws `editBothDraws` pick edit mode 2 and goal
`'Infinite Solutions'`; the challenge starts at `(0, 0, 0, 0)` and an immediate
`submitChallenge` succeeds. -/
theorem editBoth_start_witness :
    editMode editBothDraws = 2 ∧ selectedGoal editBothDraws = "Infinite Solutions" ∧
    (submitChallenge (generateChallenge editBothDraws AppState.initial)).challengeSuccess =
      true ∧
    ∃ ch, (generateChallenge editBothDraws AppState.initial).challenge = some ch ∧
      (generateChallenge editBothDraws AppState.initial).a = 0 :=
  ⟨rfl, rfl, rfl,
    match editBoth_start editBothDraws AppState.initial rfl with
    | ⟨ch, hch, ⟨ha, _⟩, _⟩ => ⟨ch, hch, ha⟩⟩

end EquationExplorer
